import Mathlib

/-!
Shallow embedding of the vehicle-ROI analysis backend (app.py) and proofs
about its rule-based categorization, formatting, validation, sanitization
and narrative-synthesis logic.

Modelling conventions:
* Python floats are modelled as rationals (ℚ); Python float arithmetic on
  the values appearing here is exact field arithmetic.
* Python strings are Lean strings; character-level work is done on
  `List Char` (the underlying data of a `String`).
* Python `round` is round-half-to-even (`pyRound`), `int()` on a float
  truncates toward zero (`pyInt`).
* Python division raises `ZeroDivisionError` on a zero denominator; where a
  division in the source is reachable with a zero denominator it is modelled
  as `pyDiv : ℚ → ℚ → Option ℚ` (`none` = exception).  Divisions whose
  denominator is a nonzero literal (e.g. `/ 12`) or that sit under an
  explicit `> 0` guard are modelled with total field division.
-/

attribute [local semireducible] Rat.add Rat.mul Rat.inv Rat.sub

/-! ### Python-like primitive helpers -/

/-- Characters stripped by Python `str.strip()` (ASCII whitespace). -/
def pyWs (c : Char) : Bool :=
  c = ' ' || c = '\t' || c = '\n' || c = '\x0d' || c = '\x0b' || c = '\x0c'

/-- Characters stripped by the source call `t.rstrip(" .,\n")`. -/
def trailPunct (c : Char) : Bool :=
  c = ' ' || c = '.' || c = ',' || c = '\n'

/-- Remove trailing characters satisfying `p` (Python `rstrip`). -/
def rstripP (p : Char → Bool) (l : List Char) : List Char :=
  (l.reverse.dropWhile p).reverse

/-- Python `str.strip()` on a character list. -/
def pyStrip (l : List Char) : List Char :=
  rstripP pyWs (l.dropWhile pyWs)

/-- Index of the first occurrence of `w` as a contiguous substring of `t`
(Python `str.find`, with `none` for the `-1` case). -/
def firstOcc (w t : List Char) : Option Nat :=
  if w.isPrefixOf t then some 0
  else
    match t with
    | [] => none
    | _ :: ts => (firstOcc w ts).map (· + 1)

/-- Round half to even, as Python `round` on a float. -/
def pyRound (q : ℚ) : ℤ :=
  let f := q.floor
  let r := q - (f : ℚ)
  if r < 1/2 then f
  else if 1/2 < r then f + 1
  else if f % 2 = 0 then f else f + 1

/-- Python `int()` applied to a float: truncation toward zero. -/
def pyInt (q : ℚ) : ℤ :=
  if 0 ≤ q then q.floor else -((-q).floor)

/-- Absolute value, written out so that it evaluates by kernel reduction. -/
def qabs (q : ℚ) : ℚ := if q < 0 then -q else q

/-- Decimal digit character for a value < 10. -/
def digitChar (d : ℕ) : Char := Char.ofNat (48 + d)

/-- Decimal digits of a natural number, most significant first.  Implemented
with structural fuel so that it evaluates by kernel reduction. -/
def natDigitsAux : ℕ → ℕ → List Char → List Char
  | 0, _, acc => acc
  | fuel + 1, n, acc =>
    if n < 10 then digitChar n :: acc
    else natDigitsAux fuel (n / 10) (digitChar (n % 10) :: acc)

/-- Decimal digits of a natural number, most significant first. -/
def natDigits (n : ℕ) : List Char := natDigitsAux (n + 1) n []

/-- Chunks of three characters, used on a reversed digit string to model the
thousands grouping of Python format specs like `:,.0f`. -/
def chunk3 : List Char → List (List Char)
  | [] => []
  | [a] => [[a]]
  | [a, b] => [[a, b]]
  | a :: b :: c :: rest => [a, b, c] :: chunk3 rest

/-- Join chunks with a period between consecutive chunks. -/
def sepDots : List (List Char) → List Char
  | [] => []
  | [a] => a
  | a :: b :: rest => a ++ '.' :: sepDots (b :: rest)

/-- Insert a period every three digits counting from the right: the result of
Python `f-string` `:,` grouping followed by `.replace(",", ".")`. -/
def groupThousands (ds : List Char) : List Char :=
  (sepDots (chunk3 ds.reverse)).reverse

/-- Strip the grouping separators again. -/
def removeDots (l : List Char) : List Char :=
  l.filter (fun c => c ≠ '.')

/-- Decimal rendering of an integer (Python `f"{n}"`). -/
def intStr (z : ℤ) : String :=
  (if z < 0 then "-" else "") ++ String.mk (natDigits z.natAbs)

/-- Python `f"{value:,.0f}".replace(",", ".")`: round half to even to an
integer, render with a period as thousands separator. -/
def fmtComma0f (q : ℚ) : String :=
  (if q < 0 then "-" else "") ++
    String.mk (groupThousands (natDigits (pyRound (qabs q)).toNat))

/-- Python `f"Rp {value:,.0f}".replace(",", ".")`, the currency rendering
used throughout the source. -/
def fmtRp (q : ℚ) : String := "Rp " ++ fmtComma0f q

/-- Left-pad a digit string with zeros to width `d`. -/
def padZeros (d : ℕ) (ds : List Char) : List Char :=
  List.replicate (d - ds.length) '0' ++ ds

/-- Python `f"{x:.df}"`: fixed-point rendering with `d` decimal places,
rounding half to even. -/
def fmtFixed (x : ℚ) (d : ℕ) : String :=
  let n := (pyRound (qabs x * (10 : ℚ) ^ d)).toNat
  let sgn : String := if x < 0 then "-" else ""
  if d = 0 then sgn ++ String.mk (natDigits n)
  else
    sgn ++ String.mk (natDigits (n / 10 ^ d)) ++ "." ++
      String.mk (padZeros d (natDigits (n % 10 ^ d)))

/-- Python true division, `none` modelling `ZeroDivisionError`. -/
def pyDiv (a b : ℚ) : Option ℚ := if b = 0 then none else some (a / b)

/-- Python `int(s)` on a string: optional surrounding whitespace, optional
sign, then decimal digits; `none` models the `ValueError` raised otherwise. -/
def parseIntStr (s : String) : Option ℤ :=
  let l := pyStrip s.data
  let core : Bool × List Char :=
    match l with
    | '-' :: rest => (true, rest)
    | '+' :: rest => (false, rest)
    | _ => (false, l)
  if core.2 ≠ [] ∧ core.2.all (fun c => '0' ≤ c ∧ c ≤ '9') then
    some ((if core.1 then -1 else 1) *
      (core.2.foldl (fun a c => 10 * a + ((c.toNat : ℤ) - 48)) 0))
  else none

/-! ### Input data model (app.py lines 31-50) -/

/-- Input data structure for vehicle ROI analysis (`VehicleInputData`). -/
structure VehicleInputData where
  unit_name : String
  segment : String
  unit_price : ℚ
  uses_leasing : Bool := false
  tco : ℚ := 0
  annual_tco : ℚ := 0
  cost_per_km : ℚ := 0
  revenue_per_km : ℚ := 0
  contribution_margin : ℚ := 0
  total_revenue : ℚ := 0
  roi : ℚ := 0
  bep_years : ℚ := 0
  bep_km : ℚ := 0
  owning_pct : ℚ := 0
  operational_pct : ℚ := 0
  residual_value_pct : ℚ := 30/100
deriving DecidableEq

/-! ### Output data model (app.py lines 114-177) -/

structure ROIAnalysis where
  percentage : String
  category : String
  short_sentence : String
  insight_narrative : String
deriving DecidableEq

structure TCOAnalysis where
  amount_rp : String
  category : String
  short_sentence : String
  insight_narrative : String
deriving DecidableEq

structure PieChartData where
  owning_cost : ℤ
  operational_cost : ℤ
deriving DecidableEq

structure OwningVsOperational where
  owning_percentage : ℤ
  operational_percentage : ℤ
  category : String
  short_sentence : String
  cashflow_implication : String
  pie_chart_data : PieChartData
deriving DecidableEq

structure MonthlySimulation where
  installment : String
  revenue : String
  net_cashflow : String
deriving DecidableEq

structure BreakEvenPoint where
  period : String
  bep_km : String
  category : String
  short_sentence : String
  monthly_simulation : MonthlySimulation
  bep_insight : String
deriving DecidableEq

structure ContributionMargin where
  margin_rp : String
  category : String
  short_sentence : String
  margin_insight : String
deriving DecidableEq

structure OverallInsight where
  summary : String := ""
  key_insight : String := ""
deriving DecidableEq

structure VehicleROIOutput where
  roi : ROIAnalysis
  tco : TCOAnalysis
  owning_vs_operational : OwningVsOperational
  break_even_point : BreakEvenPoint
  contribution_margin_per_km : ContributionMargin
  overall_insight : OverallInsight
deriving DecidableEq

/-! ### Categorization rule tables (app.py lines 183-214) -/

/-- A label/message pair returned by every categorizer. -/
structure CatResult where
  label : String
  message : String
deriving DecidableEq

/-- A predicate-based rule entry of `categorization_rules`. -/
structure PredRule where
  criteria : ℚ → Bool
  label : String
  quick_message : String

/-- A range-based rule entry (`min`/`max` keys); `max = none` models
`float("inf")`. -/
structure RangeRule where
  rmin : ℚ
  rmax : Option ℚ
  label : String
  quick_message : String

/-- `categorization_rules["roi_score"]`. -/
def roi_score_rules : List PredRule :=
  [ ⟨fun roi => decide (roi > 3/2), "Sangat Layak",
      "Pengembalian luar biasa di atas standar industri"⟩,
    ⟨fun roi => decide (1 < roi ∧ roi ≤ 3/2), "Layak",
      "Investasi sehat dengan margin memadai"⟩,
    ⟨fun roi => decide (7/10 < roi ∧ roi ≤ 1), "Perlu Dievaluasi",
      "Profit tipis dan sensitif terhadap fluktuasi"⟩,
    ⟨fun roi => decide (1/2 < roi ∧ roi ≤ 7/10), "Tidak Disarankan",
      "Pengembalian rendah dan berisiko"⟩,
    ⟨fun roi => decide (roi ≤ 1/2), "Rugi",
      "Berpotensi rugi signifikan"⟩ ]

/-- `categorization_rules["cost_per_km"]`. -/
def cost_per_km_rules : List RangeRule :=
  [ ⟨0, some 4800, "Sangat Efisien", "Biaya sangat rendah, keunggulan kompetitif"⟩,
    ⟨4801, some 5200, "Efisien", "Biaya kompetitif, aman untuk profit"⟩,
    ⟨5201, some 5500, "Kurang Efisien", "Biaya mulai menekan margin"⟩,
    ⟨5501, none, "Tidak Efisien", "Biaya tinggi, kurang kompetitif"⟩ ]

/-- `categorization_rules["bep_years"]`. -/
def bep_years_rules : List PredRule :=
  [ ⟨fun bep => decide (bep ≤ 2), "Sangat Cepat", "Balik modal sangat cepat"⟩,
    ⟨fun bep => decide (2 < bep ∧ bep ≤ 3), "Cepat", "Waktu impas kompetitif"⟩,
    ⟨fun bep => decide (3 < bep ∧ bep ≤ 4), "Lambat", "Balik modal lama"⟩,
    ⟨fun bep => decide (bep > 4), "Sangat Lambat", "Balik modal terlalu lama"⟩ ]

/-- `categorization_rules["contribution_margin"]`. -/
def contribution_margin_rules : List PredRule :=
  [ ⟨fun margin => decide (margin ≥ 6000), "Sangat Tinggi",
      "Margin kuat dan tahan fluktuasi"⟩,
    ⟨fun margin => decide (5500 ≤ margin ∧ margin < 6000), "Tinggi",
      "Margin sehat dan stabil"⟩,
    ⟨fun margin => decide (5000 ≤ margin ∧ margin < 5500), "Cukup",
      "Margin moderat"⟩,
    ⟨fun margin => decide (margin < 5000), "Rendah", "Margin tipis"⟩ ]

/-- `categorization_rules["structure_cost"]`. -/
def structure_cost_rules : List PredRule :=
  [ ⟨fun owning => decide (40/100 ≤ owning ∧ owning ≤ 60/100), "Seimbang",
      "Struktur sehat"⟩,
    ⟨fun owning => decide (owning > 60/100), "Owning Dominan", "CAPEX berat"⟩,
    ⟨fun owning => decide (owning < 40/100), "Operational Dominan", "OPEX berat"⟩ ]

/-- First predicate rule matching the value, with the uncategorized default. -/
def firstPredMatch (rules : List PredRule) (fallbackMsg : String) (x : ℚ) :
    CatResult :=
  match rules.find? (fun r => r.criteria x) with
  | some r => ⟨r.label, r.quick_message⟩
  | none => ⟨"Tidak Terkategori", fallbackMsg⟩

/-- `categorize_roi` (app.py lines 242-247). -/
def categorize_roi (roi : ℚ) : CatResult :=
  firstPredMatch roi_score_rules "ROI tidak dapat dikategorikan" roi

/-- `categorize_cost_per_km` (app.py lines 249-254): first rule whose
`min <= cost <= max` holds, with the uncategorized default. -/
def categorize_cost_per_km (cost : ℚ) : CatResult :=
  match cost_per_km_rules.find?
      (fun r => decide (r.rmin ≤ cost) &&
        (match r.rmax with
         | some m => decide (cost ≤ m)
         | none => true)) with
  | some r => ⟨r.label, r.quick_message⟩
  | none => ⟨"Tidak Terkategori", "Biaya tidak dapat dikategorikan"⟩

/-- `categorize_bep` (app.py lines 256-261). -/
def categorize_bep (bep_years : ℚ) : CatResult :=
  firstPredMatch bep_years_rules "BEP tidak dapat dikategorikan" bep_years

/-- `categorize_contribution_margin` (app.py lines 263-268). -/
def categorize_contribution_margin (margin : ℚ) : CatResult :=
  firstPredMatch contribution_margin_rules
    "Margin tidak dapat dikategorikan" margin

/-- `categorize_cost_structure` (app.py lines 270-275). -/
def categorize_cost_structure (owning_pct : ℚ) : CatResult :=
  firstPredMatch structure_cost_rules
    "Struktur tidak dapat dikategorikan" owning_pct

/-! ### Formatter methods (app.py lines 216-240) -/

/-- Python values that can reach `format_currency`; the source receives
floats on the normal path but the method is written defensively. -/
inductive PyValue where
  | num (q : ℚ)
  | infVal
  | nanVal
  | strV (s : String)
  | nullV
deriving DecidableEq

/-- `format_currency` (app.py lines 216-221).  The `try` branch formats with
`f"Rp {value:,.0f}".replace(",", ".")`; a float format of a non-finite value
yields the strings `inf`/`nan` without raising; a string or `None` makes the
format call raise, after which the bare `except` retries with `int(value)`,
whose own failure propagates out (`none`). -/
def format_currency : PyValue → Option String
  | .num q => some (fmtRp q)
  | .infVal => some "Rp inf"
  | .nanVal => some "Rp nan"
  | .strV s =>
    match parseIntStr s with
    | some z => some ("Rp " ++ (if z < 0 then "-" else "") ++
        String.mk (groupThousands (natDigits z.natAbs)))
    | none => none
  | .nullV => none

/-- `format_percentage` (app.py lines 223-225): `f"{value * 100:.{d}f}%"`. -/
def format_percentage (value : ℚ) (decimals : ℕ := 1) : String :=
  fmtFixed (value * 100) decimals ++ "%"

/-- `format_bep_years` (app.py lines 227-240). -/
def format_bep_years (bep_years : ℚ) : String :=
  let years := pyInt bep_years
  let months := pyRound ((bep_years - (years : ℚ)) * 12)
  let yearsMonths : ℤ × ℤ :=
    if months = 12 then (years + 1, 0) else (years, months)
  if yearsMonths.1 = 0 then intStr yearsMonths.2 ++ " bulan"
  else if yearsMonths.2 = 0 then intStr yearsMonths.1 ++ " tahun"
  else intStr yearsMonths.1 ++ " tahun " ++ intStr yearsMonths.2 ++ " bulan"

/-! ### Dynamic condition evaluator (app.py lines 277-309) -/

def warnRoi : String :=
  "Evaluasi Profitabilitas: ROI di bawah 100% menunjukkan investasi tidak menguntungkan. Pertimbangkan revisi strategi pricing atau efisiensi operasional."

def warnBep : String :=
  "Risiko Durasi Balik Modal: Break-even point lebih dari 3 tahun meningkatkan eksposur risiko pasar dan teknologi. Evaluasi skenario worst-case."

def warnMargin : String :=
  "Risiko Ketahanan Profit: Margin kontribusi rendah membuat bisnis rentan terhadap fluktuasi biaya operasional dan kompetisi harga."

def warnOwning : String :=
  "Optimasi Struktur Modal: Owning cost dominan (>65%) - pertimbangkan opsi leasing atau perpanjangan masa pakai untuk mengurangi beban CAPEX."

def warnCost : String :=
  "Tinjauan Efisiensi: Biaya per km tinggi (>Rp 5.500) memerlukan audit operasional untuk identifikasi area penghematan biaya."

def warnRevenue : String :=
  "Evaluasi Tarif: Revenue per km rendah (<Rp 7.000) - analisis kompetitif pricing dan potensi segmen premium diperlukan."

def warnTco : String :=
  "Validasi Premium Investment: TCO tinggi (>Rp 1.5M) memerlukan justifikasi premium melalui revenue superior atau efisiensi operasional yang terbukti."

/-- `evaluate_dynamic_conditions` (app.py lines 277-309): sequentially
appends the fixed advisory strings whose threshold conditions hold. -/
def evaluate_dynamic_conditions (data : VehicleInputData) : List String :=
  let warnings : List String := []
  let warnings := if data.roi < 1 then warnings ++ [warnRoi] else warnings
  let warnings := if data.bep_years > 3 then warnings ++ [warnBep] else warnings
  let warnings :=
    if data.contribution_margin < 5000 then warnings ++ [warnMargin] else warnings
  let warnings :=
    if data.owning_pct > 65/100 then warnings ++ [warnOwning] else warnings
  let warnings :=
    if data.cost_per_km > 5500 then warnings ++ [warnCost] else warnings
  let warnings :=
    if data.revenue_per_km < 7000 then warnings ++ [warnRevenue] else warnings
  let warnings :=
    if data.tco > 1500000000 then warnings ++ [warnTco] else warnings
  warnings

/-! ### Metric processor `process_vehicle_data` (app.py lines 311-371) -/

structure UnitInfoSection where
  name : String
  segment : String
  price : String
  uses_leasing : Bool
deriving DecidableEq

structure RoiSection where
  value : String
  category : String
  insight : String
deriving DecidableEq

structure TcoSection where
  total : String
  annual : String
  per_km : String
  efficiency : String
  insight : String
deriving DecidableEq

structure CostStructureSection where
  owning_percentage : String
  operational_percentage : String
  structure_type : String
  insight : String
deriving DecidableEq

structure BepSection where
  years_formatted : String
  kilometers : String
  category : String
  insight : String
deriving DecidableEq

structure MarginSection where
  per_km : String
  revenue_per_km : String
  total_revenue : String
  category : String
  insight : String
deriving DecidableEq

/-- The intermediate analysis dictionary assembled by
`process_vehicle_data`. -/
structure AnalysisDict where
  unit_info : UnitInfoSection
  roi_analysis : RoiSection
  tco_analysis : TcoSection
  cost_structure : CostStructureSection
  bep_analysis : BepSection
  margin_analysis : MarginSection
  dynamic_warnings : List String
deriving DecidableEq

/-- `process_vehicle_data` (app.py lines 311-371). -/
def process_vehicle_data (data : VehicleInputData) : AnalysisDict :=
  let roi_category := categorize_roi data.roi
  let cost_category := categorize_cost_per_km data.cost_per_km
  let structure_category := categorize_cost_structure data.owning_pct
  let bep_category := categorize_bep data.bep_years
  let margin_category := categorize_contribution_margin data.contribution_margin
  { unit_info :=
      { name := data.unit_name
        segment := data.segment
        price := fmtRp data.unit_price
        uses_leasing := data.uses_leasing }
    roi_analysis :=
      { value := format_percentage data.roi 1
        category := roi_category.label
        insight := roi_category.message }
    tco_analysis :=
      { total := fmtRp data.tco
        annual := fmtRp data.annual_tco
        per_km := fmtRp data.cost_per_km
        efficiency := cost_category.label
        insight := cost_category.message }
    cost_structure :=
      { owning_percentage := format_percentage data.owning_pct 0
        operational_percentage := format_percentage data.operational_pct 0
        structure_type := structure_category.label
        insight := structure_category.message }
    bep_analysis :=
      { years_formatted := format_bep_years data.bep_years
        kilometers := fmtComma0f data.bep_km ++ " km"
        category := bep_category.label
        insight := bep_category.message }
    margin_analysis :=
      { per_km := fmtRp data.contribution_margin
        revenue_per_km := fmtRp data.revenue_per_km
        total_revenue := fmtRp data.total_revenue
        category := margin_category.label
        insight := margin_category.message }
    dynamic_warnings := evaluate_dynamic_conditions data }

/-! ### Neutrality filter `sanitize_neutral` (app.py lines 397-410) -/

/-- The fixed list of advisory/action-oriented trigger words. -/
def bannedWords : List String :=
  [ "namun", "di sisi lain", "rekomendasi", "strategi", "harus",
    "segera", "prioritas", "tantangan", "disarankan", "anjurkan",
    "sebaiknya", "langkah", "action", "mitigasi", "optimasi" ]

/-- `min([low.find(w) for w in banned if low.find(w) != -1] or [len(t)])`. -/
def cutIndex (low : List Char) : ℕ :=
  match bannedWords.filterMap (fun w => firstOcc w.data low) with
  | [] => low.length
  | o :: os => os.foldl Nat.min o

/-- Core of `sanitize_neutral` on character lists. -/
def sanitizeCore (text : List Char) : List Char :=
  if text = [] then []
  else
    let t := pyStrip text
    let low := t.map Char.toLower
    let cut := cutIndex low
    let t2 := rstripP trailPunct (t.take cut)
    if t2 ≠ [] ∧ ¬ t2.getLast? = some '.' then t2 ++ ['.'] else t2

/-- `sanitize_neutral` (app.py lines 397-410): truncate at the first banned
word (searched case-insensitively), strip trailing ` .,\n`, and close with a
single period. -/
def sanitize_neutral (text : String) : String :=
  String.mk (sanitizeCore text.data)

/-! ### Deterministic fallback `build_neutral_output` (app.py lines 412-524) -/

/-- The ten phrasing variants of `pick_bep_non_leasing_sentence`
(app.py lines 380-394). -/
def bepNonLeasingVariants (period category : String) : List String :=
  [ "Periode " ++ period ++ " dikategorikan " ++ category ++ ". Simulasi bulanan tidak diterapkan karena tanpa leasing.",
    "BEP " ++ period ++ " termasuk " ++ category ++ ". Tidak ada simulasi cicilan bulanan (tanpa leasing).",
    "Estimasi balik modal " ++ period ++ "—kategori " ++ category ++ ". Simulasi bulanan tidak relevan (tanpa leasing).",
    "Balik modal diperkirakan " ++ period ++ " (" ++ category ++ "). Tidak ada komponen cicilan bulanan.",
    "Horizon BEP " ++ period ++ " diklasifikasikan " ++ category ++ ". Perhitungan arus kas bulanan tidak digunakan karena tidak ada leasing.",
    "Durasi BEP " ++ period ++ "—" ++ category ++ ". Simulasi cicilan bulanan tidak berlaku.",
    "Waktu impas " ++ period ++ " (" ++ category ++ "). Bagian simulasi bulanan diabaikan (tanpa leasing).",
    "Perkiraan BEP " ++ period ++ " pada kategori " ++ category ++ ". Tidak terdapat cicilan bulanan.",
    "BEP " ++ period ++ ": " ++ category ++ ". Modul simulasi bulanan tidak aktif (tanpa leasing).",
    "BEP " ++ period ++ " tergolong " ++ category ++ ". Simulasi bulanan tidak disertakan (non-leasing)." ]

/-- `pick_bep_non_leasing_sentence` (app.py lines 380-394).  Python selects
`variants[abs(hash(seed)) % 10]` when the seed is nonempty; the run-dependent
value `abs(hash(seed))` is modelled as the extra input `hashv`. -/
def pick_bep_non_leasing_sentence (period category : String) (seed : String)
    (hashv : ℕ) : String :=
  let variants := bepNonLeasingVariants period category
  let idx := if seed ≠ "" then hashv % variants.length else 0
  variants.getD idx ""

/-- The local `_mi` of `build_neutral_output` (app.py line 435): the
deterministic monthly installment `annual_tco / 12`. -/
def neutralMonthlyInstallment (vd : VehicleInputData) : ℚ :=
  vd.annual_tco / 12

/-- The local `_mr` of `build_neutral_output` (app.py lines 436 and 446): the
guarded monthly revenue, a defined zero when `bep_years` is not positive. -/
def neutralMonthlyRevenue (vd : VehicleInputData) : ℚ :=
  if vd.bep_years > 0 then vd.total_revenue / (vd.bep_years * 12) else 0

/-- The monthly-simulation string triple built by `build_neutral_output`
(app.py lines 434-463). -/
def neutralMonthlySimulation (vd : VehicleInputData) : MonthlySimulation :=
  if vd.uses_leasing then
    let mi := neutralMonthlyInstallment vd
    let mr := neutralMonthlyRevenue vd
    let mn := mr - mi
    { installment := fmtRp mi ++ " per bulan"
      revenue := fmtRp mr ++ " per bulan"
      net_cashflow := fmtRp mn ++ " per bulan" }
  else
    { installment := "Tidak berlaku (tanpa leasing)"
      revenue := "Tidak berlaku (tanpa leasing)"
      net_cashflow := "Tidak berlaku (tanpa leasing)" }

/-- The `bep_ins` narrative of `build_neutral_output`
(app.py lines 441-453). -/
def neutralBepInsight (analysis : AnalysisDict) (vd : VehicleInputData) : String :=
  let bep_period := analysis.bep_analysis.years_formatted
  let bep_cat := analysis.bep_analysis.category
  if vd.uses_leasing then
    let mi := neutralMonthlyInstallment vd
    let mr := neutralMonthlyRevenue vd
    let mn := mr - mi
    "Periode " ++ bep_period ++ " dikategorikan " ++ bep_cat ++ ". " ++
      "Simulasi bulanan: cicilan " ++ fmtRp mi ++ ", pendapatan " ++ fmtRp mr ++
      ", net cashflow " ++ fmtRp mn ++ "."
  else
    "Periode " ++ bep_period ++ " dikategorikan " ++ bep_cat ++ ". " ++
      "Simulasi bulanan: tidak berlaku (tanpa leasing)."

/-- `build_neutral_output` (app.py lines 412-524): the deterministic,
model-free fallback synthesis. -/
def build_neutral_output (analysis : AnalysisDict) (vd : VehicleInputData) :
    VehicleROIOutput :=
  let roi_pct := analysis.roi_analysis.value
  let roi_cat := analysis.roi_analysis.category
  let roi_short := "ROI tercatat " ++ roi_pct ++ " dengan kategori " ++ roi_cat ++ "."
  let roi_long := "Nilai ROI " ++ roi_pct ++
    " merefleksikan kinerja pengembalian sesuai kategori " ++ roi_cat ++
    " berdasarkan indikator internal."
  let per_km := analysis.tco_analysis.per_km
  let eff := analysis.tco_analysis.efficiency
  let tco_short := "Biaya operasional per kilometer " ++ per_km ++
    " dengan klasifikasi " ++ eff ++ "."
  let tco_long := "Biaya per kilometer " ++ per_km ++
    " menunjukkan tingkat efisiensi operasional pada kategori " ++ eff ++
    " menurut parameter yang digunakan."
  let own := analysis.cost_structure.owning_percentage
  let opx := analysis.cost_structure.operational_percentage
  let struct_type := analysis.cost_structure.structure_type
  let struct_short := "Komposisi biaya: Owning " ++ own ++ ", Operational " ++
    opx ++ " (" ++ struct_type ++ ")."
  let struct_imp := "Komposisi tersebut mencerminkan struktur biaya pada kategori " ++
    struct_type ++ " sesuai pembobotan persentase."
  let bep_period := analysis.bep_analysis.years_formatted
  let bep_km := analysis.bep_analysis.kilometers
  let bep_short := "Perkiraan BEP " ++ bep_period ++ " dengan jarak " ++ bep_km ++ "."
  let bep_ins := neutralBepInsight analysis vd
  let margin_rp := analysis.margin_analysis.per_km
  let margin_cat := analysis.margin_analysis.category
  let margin_short := "Margin kontribusi per km " ++ margin_rp ++
    " (kategori " ++ margin_cat ++ ")."
  let margin_long := "Nilai margin " ++ margin_rp ++
    " menggambarkan kontribusi per kilometer sesuai kategori " ++ margin_cat ++
    " berdasarkan perhitungan internal."
  let oi_summary := "Analisis menunjukkan ROI " ++ roi_pct ++
    ", biaya per kilometer " ++ per_km ++ ", komposisi biaya Owning " ++ own ++
    " dan Operational " ++ opx ++ ", serta perkiraan BEP " ++ bep_period ++
    ". Informasi tersebut menggambarkan kondisi finansial unit berdasarkan parameter yang digunakan."
  let key := "Kondisi umum selaras dengan kategori ROI: " ++ roi_cat ++ "."
  { roi :=
      { percentage := roi_pct
        category := roi_cat
        short_sentence := sanitize_neutral roi_short
        insight_narrative := sanitize_neutral roi_long }
    tco :=
      { amount_rp := per_km
        category := eff
        short_sentence := sanitize_neutral tco_short
        insight_narrative := sanitize_neutral tco_long }
    owning_vs_operational :=
      { owning_percentage := pyInt (vd.owning_pct * 100)
        operational_percentage := pyInt (vd.operational_pct * 100)
        category := struct_type
        short_sentence := sanitize_neutral struct_short
        cashflow_implication := sanitize_neutral struct_imp
        pie_chart_data :=
          { owning_cost := pyInt (vd.owning_pct * 100)
            operational_cost := pyInt (vd.operational_pct * 100) } }
    break_even_point :=
      { period := bep_period
        bep_km := bep_km
        category := analysis.bep_analysis.category
        short_sentence := sanitize_neutral bep_short
        monthly_simulation := neutralMonthlySimulation vd
        bep_insight := sanitize_neutral bep_ins }
    contribution_margin_per_km :=
      { margin_rp := margin_rp
        category := margin_cat
        short_sentence := sanitize_neutral margin_short
        margin_insight := sanitize_neutral margin_long }
    overall_insight :=
      { summary := sanitize_neutral oi_summary
        key_insight := sanitize_neutral key } }

/-! ### Narrative synthesizer `generate_structured_analysis`
(app.py lines 373-739).

The external model call is an untrusted collaborator.  An `Option AiOutput`
input stands for its observable outcome: `none` when the call is blocked,
errors, or returns text that does not parse into the six-section schema (all
of which the source catches and routes to `build_neutral_output`), and
`some d` when a well-formed six-section JSON document was obtained. -/

/-- A six-section JSON document returned by the collaborator, as consumed by
the success path of `generate_structured_analysis`.  Fields read via
`dict.get` with a default in the source are `Option`-valued. -/
structure AiOutput where
  roi : ROIAnalysis
  tco : TCOAnalysis
  own_owning_percentage : ℤ
  own_operational_percentage : ℤ
  own_category : String
  own_short_sentence : String
  own_cashflow_implication : String
  own_pie_chart_data : Option PieChartData
  bep_period : String
  bep_bep_km : String
  bep_category : String
  bep_short_sentence : String
  bep_monthly_simulation : MonthlySimulation
  bep_bep_insight : String
  margin_margin_rp : String
  margin_category : String
  margin_short_sentence : String
  margin_margin_insight : String
  overall_summary : Option String
  overall_key_insight : Option String
deriving DecidableEq

/-- The post-processed monthly-simulation sub-record of the success path
(app.py lines 666-692): non-leasing inputs force all three fields to the
fixed "not applicable" string regardless of the collaborator values, leasing
inputs overwrite them with the deterministic backend figures. -/
def postMonthlySimulation (raw_data : VehicleInputData) : MonthlySimulation :=
  if ¬ raw_data.uses_leasing then
    { installment := "Tidak berlaku (tanpa leasing)"
      revenue := "Tidak berlaku (tanpa leasing)"
      net_cashflow := "Tidak berlaku (tanpa leasing)" }
  else
    let monthly_installment := fmtComma0f (raw_data.annual_tco / 12)
    let monthly_revenue := fmtComma0f
      (if raw_data.bep_years > 0 then
        raw_data.total_revenue / (raw_data.bep_years * 12) else 0)
    let monthly_net := fmtComma0f
      (if raw_data.bep_years > 0 then
        raw_data.total_revenue / (raw_data.bep_years * 12) - raw_data.annual_tco / 12
       else -(raw_data.annual_tco / 12))
    { installment := "Rp " ++ monthly_installment ++ " per bulan"
      revenue := "Rp " ++ monthly_revenue ++ " per bulan"
      net_cashflow := "Rp " ++ monthly_net ++ " per bulan" }

/-- Success-path post-processing and reassembly of the collaborator document
(app.py lines 660-736). -/
def postProcessAiOutput (analysis_data : AnalysisDict)
    (raw_data : VehicleInputData) (hashv : ℕ) (d : AiOutput) :
    VehicleROIOutput :=
  let summary := sanitize_neutral (d.overall_summary.getD "")
  let key_insight := sanitize_neutral (d.overall_key_insight.getD "")
  let ms := postMonthlySimulation raw_data
  let bep_insight :=
    if ¬ raw_data.uses_leasing then
      sanitize_neutral
        (pick_bep_non_leasing_sentence d.bep_period d.bep_category
          analysis_data.unit_info.name hashv)
    else d.bep_bep_insight
  let pie :=
    match d.own_pie_chart_data with
    | some p => p
    | none =>
      { owning_cost := d.own_owning_percentage
        operational_cost := d.own_operational_percentage }
  { roi := d.roi
    tco := d.tco
    owning_vs_operational :=
      { owning_percentage := d.own_owning_percentage
        operational_percentage := d.own_operational_percentage
        category := d.own_category
        short_sentence := sanitize_neutral d.own_short_sentence
        cashflow_implication := sanitize_neutral d.own_cashflow_implication
        pie_chart_data := pie }
    break_even_point :=
      { period := d.bep_period
        bep_km := d.bep_bep_km
        category := d.bep_category
        short_sentence := sanitize_neutral d.bep_short_sentence
        monthly_simulation := ms
        bep_insight := sanitize_neutral bep_insight }
    contribution_margin_per_km :=
      { margin_rp := d.margin_margin_rp
        category := d.margin_category
        short_sentence := sanitize_neutral d.margin_short_sentence
        margin_insight := sanitize_neutral d.margin_margin_insight }
    overall_insight :=
      { summary := summary
        key_insight := key_insight } }

/-- `generate_structured_analysis` (app.py lines 373-739): delegate to the
collaborator when it produced a usable six-section document, otherwise fall
back to the deterministic synthesis. -/
def generate_structured_analysis (analysis_data : AnalysisDict)
    (raw_data : VehicleInputData) (hashv : ℕ) (resp : Option AiOutput) :
    VehicleROIOutput :=
  match resp with
  | none => build_neutral_output analysis_data raw_data
  | some d => postProcessAiOutput analysis_data raw_data hashv d

/-! ### `generate_business_narrative` (app.py lines 795-887) -/

structure BusinessNarrative where
  roiText : String
  tcoText : String
  costStructureText : String
  breakEvenText : String
  marginText : String
  overallText : String
deriving DecidableEq

/-- Python `str.lower()` restricted to per-character lowering. -/
def strLower (s : String) : String := String.mk (s.data.map Char.toLower)

/-- The leasing-dependent sentence of the BEP section (app.py lines
838-851).  Both branches compute `total_revenue / (bep_years * 12)` without
any guard, so a zero `bep_years` raises (`none`). -/
def bepLeasingText (vd : VehicleInputData) : Option String :=
  if vd.uses_leasing then
    (pyDiv vd.total_revenue (vd.bep_years * 12)).bind fun mrv =>
      (pyDiv vd.total_revenue (vd.bep_years * 12)).map fun mrv2 =>
        "Dengan asumsi leasing aktif, estimasi cicilan bulanan **" ++
          fmtRp (vd.annual_tco / 12) ++ "**, pendapatan **" ++ fmtRp mrv ++
          "**, dan net cashflow **" ++ fmtRp (mrv2 - vd.annual_tco / 12) ++ "**."
  else
    (pyDiv vd.total_revenue (vd.bep_years * 12)).map fun mrv =>
      "Dengan asumsi tanpa leasing, estimasi pendapatan bulanan sekitar **" ++
        fmtRp mrv ++
        "**, menunjukkan posisi aman untuk perencanaan jangka menengah."

/-- `generate_business_narrative` (app.py lines 795-887); `none` models the
uncaught `ZeroDivisionError` escaping from the BEP section. -/
def generate_business_narrative (analysis_data : AnalysisDict)
    (vd : VehicleInputData) : Option BusinessNarrative :=
  let roi_val := analysis_data.roi_analysis.value
  let roi_cat := analysis_data.roi_analysis.category
  let roi_msg := analysis_data.roi_analysis.insight
  let roi_text := "### ROI\n\n**" ++ roi_val ++ " – " ++ roi_cat ++ "**\n" ++
    roi_msg ++ ".\nROI ini menunjukkan bahwa **" ++ vd.unit_name ++
    "** di segmen *" ++ vd.segment ++
    "* memiliki potensi pengembalian modal yang solid. " ++
    "Dengan strategi operasional yang konsisten dan efisiensi biaya, profit dapat terus dipertahankan bahkan di pasar yang fluktuatif."
  let tco_total := analysis_data.tco_analysis.total
  let tco_cat := analysis_data.tco_analysis.efficiency
  let tco_msg := analysis_data.tco_analysis.insight
  let tco_per_km := analysis_data.tco_analysis.per_km
  let tco_text := "### TCO\n\n**" ++ tco_total ++ " – " ++ tco_cat ++ "**\n" ++
    tco_msg ++ ".\nDengan **biaya per km " ++ tco_per_km ++ "**, operasional " ++
    vd.unit_name ++ " berada dalam kisaran efisien, " ++
    "memberikan ruang margin yang sehat dan menekan risiko tekanan biaya di masa mendatang."
  let own := analysis_data.cost_structure.owning_percentage
  let opx := analysis_data.cost_structure.operational_percentage
  let struct_cat := analysis_data.cost_structure.structure_type
  let struct_msg := analysis_data.cost_structure.insight
  let cost_structure_text := "### Owning vs Operational Cost\n\n**Owning " ++
    own ++ "** | **Operational " ++ opx ++ "** – " ++ struct_cat ++ "\n" ++
    struct_msg ++ ".\n" ++
    "Porsi kepemilikan dan biaya operasional yang seimbang mengindikasikan distribusi CAPEX dan OPEX yang terkontrol, " ++
    "mendukung stabilitas arus kas tanpa ketergantungan berlebihan pada salah satu sisi."
  let bep_period := analysis_data.bep_analysis.years_formatted
  let bep_km := analysis_data.bep_analysis.kilometers
  let bep_cat := analysis_data.bep_analysis.category
  let bep_msg := analysis_data.bep_analysis.insight
  let margin_val := analysis_data.margin_analysis.per_km
  let margin_cat := analysis_data.margin_analysis.category
  let margin_msg := analysis_data.margin_analysis.insight
  let margin_text := "### Contribution Margin per KM\n\n**" ++ margin_val ++
    " – " ++ margin_cat ++ "**\n" ++ margin_msg ++ ".\n" ++
    "Margin ini memberikan bantalan yang memadai untuk mengatasi kenaikan biaya bahan bakar atau perawatan, " ++
    "serta cukup fleksibel untuk memberikan diskon taktis pada kondisi pasar tertentu."
  let overall_text := "### Overall Insight\n\n**" ++ vd.unit_name ++
    "** di segmen *" ++ vd.segment ++
    "* menunjukkan profil investasi yang " ++ strLower roi_cat ++
    ", dengan ROI " ++ roi_val ++ " dan BEP " ++ bep_period ++
    " yang tergolong " ++ strLower bep_cat ++ ". TCO berada pada level " ++
    strLower tco_cat ++ ", struktur biaya " ++ strLower struct_cat ++
    ", dan margin kontribusi per km yang " ++ strLower margin_cat ++ ". " ++
    "Kombinasi ini menciptakan fondasi kuat untuk menjaga profitabilitas dan fleksibilitas strategi harga.\n" ++
    "**Key Insight:** Fokus pada peningkatan utilisasi dan volume muatan berpotensi mempercepat BEP dan mendorong ROI di atas 120%."
  (bepLeasingText vd).map fun leasing_text =>
    { roiText := roi_text
      tcoText := tco_text
      costStructureText := cost_structure_text
      breakEvenText := "### Break Even Point\n\n**" ++ bep_period ++ " | " ++
        bep_km ++ " – " ++ bep_cat ++ "**\n" ++ bep_msg ++ ".\n" ++ leasing_text
      marginText := margin_text
      overallText := overall_text }

/-! ### Validation gate `validate_vehicle_data` (app.py lines 52-112) -/

/-- A JSON value supplied for the `uses_leasing` key. -/
inductive LeasingValue where
  | boolV (b : Bool)
  | nonBool
deriving DecidableEq

/-- A raw request payload as seen by `validate_vehicle_data`.  String keys
absent from the JSON object are modelled by `none`; numeric keys carry
rationals (JSON numbers).  The name/segment keys default to the empty string
through `data.get(..., "")`. -/
structure Payload where
  unit_name : Option String := none
  segment : Option String := none
  unit_price : Option ℚ := none
  tco : Option ℚ := none
  annual_tco : Option ℚ := none
  cost_per_km : Option ℚ := none
  revenue_per_km : Option ℚ := none
  contribution_margin : Option ℚ := none
  total_revenue : Option ℚ := none
  roi : Option ℚ := none
  bep_years : Option ℚ := none
  bep_km : Option ℚ := none
  owning_pct : Option ℚ := none
  operational_pct : Option ℚ := none
  residual_value_pct : Option ℚ := none
  uses_leasing : Option LeasingValue := none
deriving DecidableEq

/-- The `required_positive_fields` list (app.py lines 66-70), paired with the
payload values, in source order. -/
def requiredPositiveFields (data : Payload) : List (String × Option ℚ) :=
  [ ("unit_price", data.unit_price), ("tco", data.tco),
    ("annual_tco", data.annual_tco), ("cost_per_km", data.cost_per_km),
    ("revenue_per_km", data.revenue_per_km),
    ("contribution_margin", data.contribution_margin),
    ("total_revenue", data.total_revenue), ("roi", data.roi),
    ("bep_years", data.bep_years), ("bep_km", data.bep_km) ]

/-- The `percentage_fields` list (app.py line 80), paired with the payload
values, in source order. -/
def percentageFields (data : Payload) : List (String × Option ℚ) :=
  [ ("owning_pct", data.owning_pct),
    ("operational_pct", data.operational_pct),
    ("residual_value_pct", data.residual_value_pct) ]

/-- The message contributed by one required-positive field
(app.py lines 72-77). -/
def reqFieldErr (fv : String × Option ℚ) : List String :=
  match fv.2 with
  | none => [fv.1 ++ " is required"]
  | some v => if v ≤ 0 then [fv.1 ++ " must be a positive number"] else []

/-- The message contributed by one percentage field (app.py lines 81-85). -/
def pctFieldErr (fv : String × Option ℚ) : List String :=
  match fv.2 with
  | none => []
  | some v =>
    if ¬ (0 ≤ v ∧ v ≤ 1) then [fv.1 ++ " must be between 0 and 1"] else []

/-- The name/segment messages (app.py lines 56-63). -/
def nameErrs (data : Payload) : List String :=
  (if pyStrip (data.unit_name.getD "").data = [] then
    ["unit_name is required and cannot be empty"] else []) ++
  (if pyStrip (data.segment.getD "").data = [] then
    ["segment is required and cannot be empty"] else [])

/-- The boolean-flag message (app.py lines 87-90). -/
def leasErrs (data : Payload) : List String :=
  match data.uses_leasing.getD (.boolV false) with
  | .boolV _ => []
  | .nonBool => ["uses_leasing must be a boolean"]

/-- The error messages collected by `validate_vehicle_data`
(app.py lines 54-90), in source order. -/
def collectErrors (data : Payload) : List String :=
  nameErrs data ++
  (requiredPositiveFields data).foldl (fun acc fv => acc ++ reqFieldErr fv) [] ++
  (percentageFields data).foldl (fun acc fv => acc ++ pctFieldErr fv) [] ++
  leasErrs data

/-- `validate_vehicle_data` (app.py lines 52-112): raise a single aggregated
`ValueError` when any violation was collected, otherwise build the validated
record. -/
def validate_vehicle_data (data : Payload) :
    Except String VehicleInputData :=
  let errors := collectErrors data
  if errors ≠ [] then
    .error ("Validation errors: " ++ String.intercalate ", " errors)
  else
    .ok
      { unit_name := String.mk (pyStrip (data.unit_name.getD "").data)
        segment := String.mk (pyStrip (data.segment.getD "").data)
        unit_price := data.unit_price.getD 0
        uses_leasing :=
          match data.uses_leasing.getD (.boolV false) with
          | .boolV b => b
          | .nonBool => false
        tco := data.tco.getD 0
        annual_tco := data.annual_tco.getD 0
        cost_per_km := data.cost_per_km.getD 0
        revenue_per_km := data.revenue_per_km.getD 0
        contribution_margin := data.contribution_margin.getD 0
        total_revenue := data.total_revenue.getD 0
        roi := data.roi.getD 0
        bep_years := data.bep_years.getD 0
        bep_km := data.bep_km.getD 0
        owning_pct := data.owning_pct.getD 0
        operational_pct := data.operational_pct.getD 0
        residual_value_pct := data.residual_value_pct.getD (30/100) }


/-! ### Shared concrete inputs for concrete evaluations -/

/-- Concrete validated input, matching end-to-end scenario A of the spec. -/
def sampleInput : VehicleInputData :=
  { unit_name := "Truck A"
    segment := "Logistik"
    unit_price := 500000000
    uses_leasing := true
    tco := 1200000000
    annual_tco := 240000000
    cost_per_km := 5000
    revenue_per_km := 7500
    contribution_margin := 2500
    total_revenue := 1800000000
    roi := 5/4
    bep_years := 14/5
    bep_km := 150000
    owning_pct := 55/100
    operational_pct := 45/100 }

/-- The same concrete input without leasing. -/
def sampleInputNoLease : VehicleInputData :=
  { sampleInput with uses_leasing := false }

/-- Concrete input with `uses_leasing = false` and `bep_years = 0`,
matching end-to-end scenario B of the spec. -/
def zeroBepInput : VehicleInputData :=
  { sampleInput with uses_leasing := false, bep_years := 0 }

/-- A collaborator document with adversarial monthly-simulation strings. -/
def sampleAiOutput : AiOutput :=
  { roi := ⟨"125.0%", "Layak", "ok", "ok"⟩
    tco := ⟨"Rp 5.000", "Efisien", "ok", "ok"⟩
    own_owning_percentage := 55
    own_operational_percentage := 45
    own_category := "Seimbang"
    own_short_sentence := "ok"
    own_cashflow_implication := "ok"
    own_pie_chart_data := none
    bep_period := "2 tahun 10 bulan"
    bep_bep_km := "150.000 km"
    bep_category := "Cepat"
    bep_short_sentence := "ok"
    bep_monthly_simulation :=
      ⟨"Rp 999 per bulan", "Rp 999 per bulan", "Rp 999 per bulan"⟩
    bep_bep_insight := "ok"
    margin_margin_rp := "Rp 2.500"
    margin_category := "Rendah"
    margin_short_sentence := "ok"
    margin_margin_insight := "ok"
    overall_summary := some "ringkas"
    overall_key_insight := some "faktual" }

/-- A valid payload for `validate_vehicle_data` (scenario A shaped). -/
def samplePayload : Payload :=
  { unit_name := some "Truck A"
    segment := some "Logistik"
    unit_price := some 500000000
    tco := some 1200000000
    annual_tco := some 240000000
    cost_per_km := some 5000
    revenue_per_km := some 7500
    contribution_margin := some 2500
    total_revenue := some 1800000000
    roi := some (5/4)
    bep_years := some (14/5)
    bep_km := some 150000
    owning_pct := some (55/100)
    operational_pct := some (45/100)
    uses_leasing := some (.boolV true) }

/-- The valid payload with three required numeric fields removed. -/
def missingThreePayload : Payload :=
  { samplePayload with unit_price := none, tco := none, annual_tco := none }

/-- The claim-side violation predicate for `validate_vehicle_data`: an empty
(after stripping) name or segment, a required numeric field missing or not
positive, a supplied percentage field outside `[0, 1]`, or a non-boolean
leasing flag. -/
def payloadViolation (data : Payload) : Prop :=
  pyStrip (data.unit_name.getD "").data = [] ∨
  pyStrip (data.segment.getD "").data = [] ∨
  (∃ fv ∈ requiredPositiveFields data,
    fv.2 = none ∨ ∃ q, fv.2 = some q ∧ q ≤ 0) ∨
  (∃ fv ∈ percentageFields data,
    ∃ q, fv.2 = some q ∧ ¬ (0 ≤ q ∧ q ≤ 1)) ∨
  data.uses_leasing.getD (.boolV false) = .nonBool

/-! ### Claim theorems -/

/-- C1: for every input with `uses_leasing = false`, the monthly-simulation
sub-record of the `VehicleROIOutput` produced by
`generate_structured_analysis` reads the fixed "not applicable" string
(`Tidak berlaku (tanpa leasing)`) in all three fields, on the deterministic
fallback path (`resp = none`) and on the AI-success path (`resp = some d`)
alike, for every collaborator document `d`. -/
theorem nonleasing_monthly_simulation_not_applicable
    (analysis_data : AnalysisDict) (raw_data : VehicleInputData)
    (hashv : ℕ) (resp : Option AiOutput)
    (h : raw_data.uses_leasing = false) :
    (generate_structured_analysis analysis_data raw_data hashv
        resp).break_even_point.monthly_simulation =
      { installment := "Tidak berlaku (tanpa leasing)"
        revenue := "Tidak berlaku (tanpa leasing)"
        net_cashflow := "Tidak berlaku (tanpa leasing)" } := by
  cases resp with
  | none =>
    simp [generate_structured_analysis, build_neutral_output,
      neutralMonthlySimulation, h]
  | some d =>
    simp [generate_structured_analysis, postProcessAiOutput,
      postMonthlySimulation, h]

/-- Witness for C1 at a concrete non-leasing input, on both paths. -/
theorem nonleasing_monthly_simulation_not_applicable_witness :
    sampleInputNoLease.uses_leasing = false ∧
    (generate_structured_analysis (process_vehicle_data sampleInputNoLease)
        sampleInputNoLease 7 none).break_even_point.monthly_simulation =
      { installment := "Tidak berlaku (tanpa leasing)"
        revenue := "Tidak berlaku (tanpa leasing)"
        net_cashflow := "Tidak berlaku (tanpa leasing)" } ∧
    (generate_structured_analysis (process_vehicle_data sampleInputNoLease)
        sampleInputNoLease 7 (some sampleAiOutput)).break_even_point.monthly_simulation =
      { installment := "Tidak berlaku (tanpa leasing)"
        revenue := "Tidak berlaku (tanpa leasing)"
        net_cashflow := "Tidak berlaku (tanpa leasing)" } :=
  ⟨rfl,
    nonleasing_monthly_simulation_not_applicable _ _ 7 none rfl,
    nonleasing_monthly_simulation_not_applicable _ _ 7 (some sampleAiOutput) rfl⟩

/-- C2: for every input with `uses_leasing = true`, the monthly simulation
produced by `generate_structured_analysis` shows installment
`annual_tco / 12`, revenue `total_revenue / (bep_years * 12)` when
`bep_years > 0` and `0` otherwise, and net cash flow `revenue − installment`,
on the fallback path and on the AI post-processing path alike. -/
theorem leasing_monthly_simulation_figures
    (analysis_data : AnalysisDict) (raw_data : VehicleInputData)
    (hashv : ℕ) (resp : Option AiOutput)
    (h : raw_data.uses_leasing = true) :
    (generate_structured_analysis analysis_data raw_data hashv
        resp).break_even_point.monthly_simulation =
      { installment := fmtRp (raw_data.annual_tco / 12) ++ " per bulan"
        revenue := fmtRp (if raw_data.bep_years > 0 then
            raw_data.total_revenue / (raw_data.bep_years * 12) else 0) ++
          " per bulan"
        net_cashflow := fmtRp ((if raw_data.bep_years > 0 then
            raw_data.total_revenue / (raw_data.bep_years * 12) else 0) -
            raw_data.annual_tco / 12) ++ " per bulan" } := by
  cases resp with
  | none =>
    simp only [generate_structured_analysis, build_neutral_output,
      neutralMonthlySimulation, neutralMonthlyInstallment,
      neutralMonthlyRevenue, h, if_true]
  | some d =>
    simp only [generate_structured_analysis, postProcessAiOutput,
      postMonthlySimulation, h, Bool.not_true, Bool.false_eq_true, if_false,
      fmtRp, String.append_assoc]
    by_cases hb : raw_data.bep_years > 0
    · simp [hb]
    · simp [hb, zero_sub]

/-- Witness for C2 at a concrete leasing input, on both paths. -/
theorem leasing_monthly_simulation_figures_witness :
    sampleInput.uses_leasing = true ∧
    (generate_structured_analysis (process_vehicle_data sampleInput)
        sampleInput 7 none).break_even_point.monthly_simulation =
      { installment := fmtRp (sampleInput.annual_tco / 12) ++ " per bulan"
        revenue := fmtRp (if sampleInput.bep_years > 0 then
            sampleInput.total_revenue / (sampleInput.bep_years * 12) else 0) ++
          " per bulan"
        net_cashflow := fmtRp ((if sampleInput.bep_years > 0 then
            sampleInput.total_revenue / (sampleInput.bep_years * 12) else 0) -
            sampleInput.annual_tco / 12) ++ " per bulan" } :=
  ⟨rfl, leasing_monthly_simulation_figures _ _ 7 none rfl⟩

/-- C8 (code-level evaluation): with `uses_leasing = false` and
`bep_years = 0`, the guarded monthly-revenue computation of the
fallback/structured path is the defined value `0`, but the unguarded
division in `generate_business_narrative` raises `ZeroDivisionError`
(modelled by `none`), for every analysis dictionary. -/
theorem business_narrative_divides_by_zero (analysis_data : AnalysisDict) :
    neutralMonthlyRevenue zeroBepInput = 0 ∧
    generate_business_narrative analysis_data zeroBepInput = none := by
  constructor
  · simp [neutralMonthlyRevenue, zeroBepInput, sampleInput]
  · simp [generate_business_narrative, bepLeasingText, zeroBepInput,
      sampleInput, pyDiv]

/-- C6: `categorize_roi` evaluates the ordered ROI rule list top-to-bottom
and returns the first matching rule; the five ranges cover every rational,
so the uncategorized fallback is unreachable. -/
theorem categorize_roi_first_match (roi : ℚ) :
    (3/2 < roi → categorize_roi roi =
      ⟨"Sangat Layak", "Pengembalian luar biasa di atas standar industri"⟩) ∧
    (1 < roi → roi ≤ 3/2 → categorize_roi roi =
      ⟨"Layak", "Investasi sehat dengan margin memadai"⟩) ∧
    (7/10 < roi → roi ≤ 1 → categorize_roi roi =
      ⟨"Perlu Dievaluasi", "Profit tipis dan sensitif terhadap fluktuasi"⟩) ∧
    (1/2 < roi → roi ≤ 7/10 → categorize_roi roi =
      ⟨"Tidak Disarankan", "Pengembalian rendah dan berisiko"⟩) ∧
    (roi ≤ 1/2 → categorize_roi roi =
      ⟨"Rugi", "Berpotensi rugi signifikan"⟩) ∧
    (categorize_roi roi).label ≠ "Tidak Terkategori" := by
  have c1 : 3/2 < roi → categorize_roi roi =
      ⟨"Sangat Layak", "Pengembalian luar biasa di atas standar industri"⟩ := by
    intro h
    simp [categorize_roi, firstPredMatch, roi_score_rules, h]
  have c2 : 1 < roi → roi ≤ 3/2 → categorize_roi roi =
      ⟨"Layak", "Investasi sehat dengan margin memadai"⟩ := by
    intro h1 h2
    simp [categorize_roi, firstPredMatch, roi_score_rules, h1, h2, not_lt.2 h2]
  have c3 : 7/10 < roi → roi ≤ 1 → categorize_roi roi =
      ⟨"Perlu Dievaluasi", "Profit tipis dan sensitif terhadap fluktuasi"⟩ := by
    intro h1 h2
    have hn : ¬ (1 : ℚ) < roi := not_lt.2 h2
    have hn2 : ¬ (3/2 : ℚ) < roi := not_lt.2 (h2.trans (by norm_num))
    simp [categorize_roi, firstPredMatch, roi_score_rules, h1, h2, hn, hn2]
  have c4 : 1/2 < roi → roi ≤ 7/10 → categorize_roi roi =
      ⟨"Tidak Disarankan", "Pengembalian rendah dan berisiko"⟩ := by
    intro h1 h2
    have h1i : (2 : ℚ)⁻¹ < roi := by simpa using h1
    have hn : ¬ (7/10 : ℚ) < roi := not_lt.2 h2
    have hn2 : ¬ (1 : ℚ) < roi := not_lt.2 (h2.trans (by norm_num))
    have hn3 : ¬ (3/2 : ℚ) < roi := not_lt.2 (h2.trans (by norm_num))
    simp [categorize_roi, firstPredMatch, roi_score_rules, h1i, h2, hn, hn2, hn3]
  have c5 : roi ≤ 1/2 → categorize_roi roi =
      ⟨"Rugi", "Berpotensi rugi signifikan"⟩ := by
    intro h
    have hi : roi ≤ (2 : ℚ)⁻¹ := by simpa using h
    have hn : ¬ (2 : ℚ)⁻¹ < roi := not_lt.2 hi
    have hn2 : ¬ (7/10 : ℚ) < roi := not_lt.2 (h.trans (by norm_num))
    have hn3 : ¬ (1 : ℚ) < roi := not_lt.2 (h.trans (by norm_num))
    have hn4 : ¬ (3/2 : ℚ) < roi := not_lt.2 (h.trans (by norm_num))
    simp [categorize_roi, firstPredMatch, roi_score_rules, hi, hn, hn2, hn3, hn4]
  refine ⟨c1, c2, c3, c4, c5, ?_⟩
  rcases lt_or_le (3/2 : ℚ) roi with h | h
  · rw [c1 h]; decide
  rcases lt_or_le (1 : ℚ) roi with h1 | h1
  · rw [c2 h1 h]; decide
  rcases lt_or_le (7/10 : ℚ) roi with h2 | h2
  · rw [c3 h2 h1]; decide
  rcases lt_or_le (1/2 : ℚ) roi with h3 | h3
  · rw [c4 h3 h2]; decide
  · rw [c5 h3]; decide

/-- Witness for C6 at a concrete value in each band. -/
theorem categorize_roi_first_match_witness :
    ((1 : ℚ) < 5/4 ∧ (5/4 : ℚ) ≤ 3/2) ∧
    categorize_roi (5/4) =
      ⟨"Layak", "Investasi sehat dengan margin memadai"⟩ :=
  ⟨⟨by norm_num, by norm_num⟩,
    (categorize_roi_first_match (5/4)).2.1 (by norm_num) (by norm_num)⟩

/-- C3 counterexample: the cost ranges gap on non-integer values, so the
uncategorized fallback IS returned for a non-negative cost: 4800.5 falls in
the gap between `[0, 4800]` and `[4801, 5200]`. -/
theorem categorize_cost_gap_cex :
    (0 : ℚ) ≤ 9601/2 ∧
    categorize_cost_per_km (9601/2) =
      ⟨"Tidak Terkategori", "Biaya tidak dapat dikategorikan"⟩ := by
  constructor
  · norm_num
  · decide

/-- C3 (amended to integer costs): on every natural-number cost the four
ranges of `categorize_cost_per_km` neither gap nor overlap — each band gets
its label and the uncategorized fallback is never returned. -/
theorem categorize_cost_integer_total (n : ℕ) :
    (n ≤ 4800 → categorize_cost_per_km (n : ℚ) =
      ⟨"Sangat Efisien", "Biaya sangat rendah, keunggulan kompetitif"⟩) ∧
    (4801 ≤ n → n ≤ 5200 → categorize_cost_per_km (n : ℚ) =
      ⟨"Efisien", "Biaya kompetitif, aman untuk profit"⟩) ∧
    (5201 ≤ n → n ≤ 5500 → categorize_cost_per_km (n : ℚ) =
      ⟨"Kurang Efisien", "Biaya mulai menekan margin"⟩) ∧
    (5501 ≤ n → categorize_cost_per_km (n : ℚ) =
      ⟨"Tidak Efisien", "Biaya tinggi, kurang kompetitif"⟩) ∧
    (categorize_cost_per_km (n : ℚ)).label ≠ "Tidak Terkategori" := by
  have c1 : n ≤ 4800 → categorize_cost_per_km (n : ℚ) =
      ⟨"Sangat Efisien", "Biaya sangat rendah, keunggulan kompetitif"⟩ := by
    intro h
    have h1 : (n : ℚ) ≤ 4800 := by exact_mod_cast h
    have h0 : (0 : ℚ) ≤ (n : ℚ) := Nat.cast_nonneg n
    simp [categorize_cost_per_km, cost_per_km_rules, h0, h1]
  have c2 : 4801 ≤ n → n ≤ 5200 → categorize_cost_per_km (n : ℚ) =
      ⟨"Efisien", "Biaya kompetitif, aman untuk profit"⟩ := by
    intro ha hb
    have h1 : ¬ (n : ℚ) ≤ 4800 := by
      rw [not_le]; exact_mod_cast (by omega : 4800 < n)
    have h2 : (4801 : ℚ) ≤ (n : ℚ) := by exact_mod_cast ha
    have h3 : (n : ℚ) ≤ 5200 := by exact_mod_cast hb
    have h0 : (0 : ℚ) ≤ (n : ℚ) := Nat.cast_nonneg n
    simp [categorize_cost_per_km, cost_per_km_rules, h0, h1, h2, h3]
  have c3 : 5201 ≤ n → n ≤ 5500 → categorize_cost_per_km (n : ℚ) =
      ⟨"Kurang Efisien", "Biaya mulai menekan margin"⟩ := by
    intro ha hb
    have h1 : ¬ (n : ℚ) ≤ 4800 := by
      rw [not_le]; exact_mod_cast (by omega : 4800 < n)
    have h2 : ¬ (n : ℚ) ≤ 5200 := by
      rw [not_le]; exact_mod_cast (by omega : 5200 < n)
    have h3 : (5201 : ℚ) ≤ (n : ℚ) := by exact_mod_cast ha
    have h4 : (n : ℚ) ≤ 5500 := by exact_mod_cast hb
    have h0 : (0 : ℚ) ≤ (n : ℚ) := Nat.cast_nonneg n
    simp [categorize_cost_per_km, cost_per_km_rules, h0, h1, h2, h3, h4]
  have c4 : 5501 ≤ n → categorize_cost_per_km (n : ℚ) =
      ⟨"Tidak Efisien", "Biaya tinggi, kurang kompetitif"⟩ := by
    intro ha
    have h1 : ¬ (n : ℚ) ≤ 4800 := by
      rw [not_le]; exact_mod_cast (by omega : 4800 < n)
    have h2 : ¬ (n : ℚ) ≤ 5200 := by
      rw [not_le]; exact_mod_cast (by omega : 5200 < n)
    have h3 : ¬ (n : ℚ) ≤ 5500 := by
      rw [not_le]; exact_mod_cast (by omega : 5500 < n)
    have h4 : (5501 : ℚ) ≤ (n : ℚ) := by exact_mod_cast ha
    have h0 : (0 : ℚ) ≤ (n : ℚ) := Nat.cast_nonneg n
    simp [categorize_cost_per_km, cost_per_km_rules, h0, h1, h2, h3, h4]
  refine ⟨c1, c2, c3, c4, ?_⟩
  by_cases k1 : n ≤ 4800
  · rw [c1 k1]; decide
  by_cases k2 : n ≤ 5200
  · rw [c2 (by omega) k2]; decide
  by_cases k3 : n ≤ 5500
  · rw [c3 (by omega) k3]; decide
  · rw [c4 (by omega)]; decide

/-- Witness for C3 (amended) at a concrete in-band cost. -/
theorem categorize_cost_integer_total_witness :
    (4801 ≤ 5000 ∧ 5000 ≤ 5200) ∧
    categorize_cost_per_km ((5000 : ℕ) : ℚ) =
      ⟨"Efisien", "Biaya kompetitif, aman untuk profit"⟩ :=
  ⟨⟨by norm_num, by norm_num⟩,
    (categorize_cost_integer_total 5000).2.1 (by norm_num) (by norm_num)⟩

/-- Conditional append in the sequential warning accumulation, pushed into
appended form. -/
theorem append_if_push (c : Prop) [Decidable c] (l : List String) (w : String) :
    (if c then l ++ [w] else l) = l ++ (if c then [w] else []) := by
  split_ifs <;> simp

/-- The seven advisory strings are pairwise distinct where needed below. -/
theorem warnRoi_ne :
    warnRoi ≠ warnBep ∧ warnRoi ≠ warnMargin ∧ warnRoi ≠ warnOwning ∧
    warnRoi ≠ warnCost ∧ warnRoi ≠ warnRevenue ∧ warnRoi ≠ warnTco := by
  refine ⟨?_, ?_, ?_, ?_, ?_, ?_⟩ <;> decide

/-- C10: `evaluate_dynamic_conditions` returns exactly the advisory strings
whose conditions hold, concatenated in the fixed check order; in particular
for margin 2500 and roi 1.25 the result contains the margin warning and not
the ROI warning. -/
theorem dynamic_conditions_exact (d : VehicleInputData) :
    evaluate_dynamic_conditions d =
      (if d.roi < 1 then [warnRoi] else []) ++
      (if d.bep_years > 3 then [warnBep] else []) ++
      (if d.contribution_margin < 5000 then [warnMargin] else []) ++
      (if d.owning_pct > 65/100 then [warnOwning] else []) ++
      (if d.cost_per_km > 5500 then [warnCost] else []) ++
      (if d.revenue_per_km < 7000 then [warnRevenue] else []) ++
      (if d.tco > 1500000000 then [warnTco] else []) ∧
    (d.contribution_margin = 2500 → d.roi = 5/4 →
      warnMargin ∈ evaluate_dynamic_conditions d ∧
      warnRoi ∉ evaluate_dynamic_conditions d) := by
  have hmain : evaluate_dynamic_conditions d =
      (if d.roi < 1 then [warnRoi] else []) ++
      (if d.bep_years > 3 then [warnBep] else []) ++
      (if d.contribution_margin < 5000 then [warnMargin] else []) ++
      (if d.owning_pct > 65/100 then [warnOwning] else []) ++
      (if d.cost_per_km > 5500 then [warnCost] else []) ++
      (if d.revenue_per_km < 7000 then [warnRevenue] else []) ++
      (if d.tco > 1500000000 then [warnTco] else []) := by
    simp only [evaluate_dynamic_conditions]
    rw [append_if_push, append_if_push, append_if_push, append_if_push,
      append_if_push, append_if_push, append_if_push]
    simp [List.append_assoc]
  refine ⟨hmain, fun hm hr => ?_⟩
  rw [hmain]
  obtain ⟨n1, n2, n3, n4, n5, n6⟩ := warnRoi_ne
  constructor
  · have hc : d.contribution_margin < 5000 := by rw [hm]; norm_num
    simp [hc]
  · have hnr : ¬ d.roi < 1 := by rw [hr]; norm_num
    simp only [hnr, if_false, List.nil_append]
    split_ifs <;> simp_all [n1, n2, n3, n4, n5, n6]

/-- Witness for C10 at the scenario-A input. -/
theorem dynamic_conditions_exact_witness :
    sampleInput.contribution_margin = 2500 ∧ sampleInput.roi = 5/4 ∧
    warnMargin ∈ evaluate_dynamic_conditions sampleInput ∧
    warnRoi ∉ evaluate_dynamic_conditions sampleInput :=
  ⟨rfl, rfl,
    ((dynamic_conditions_exact sampleInput).2 rfl rfl).1,
    ((dynamic_conditions_exact sampleInput).2 rfl rfl).2⟩

/-- `Rat.floor` agrees with the floor of the `FloorRing` structure. -/
theorem rat_floor_eq_intFloor (q : ℚ) : q.floor = ⌊q⌋ := by
  rw [Rat.floor_def', Rat.floor_def]

/-- `pyRound` returns a nearest integer (ties broken to even). -/
theorem pyRound_nearest (q : ℚ) : |q - (pyRound q : ℚ)| ≤ 1/2 := by
  simp only [pyRound, rat_floor_eq_intFloor]
  have h0 : (0 : ℚ) ≤ q - (⌊q⌋ : ℚ) := sub_nonneg.2 (Int.floor_le q)
  have h1 : q - (⌊q⌋ : ℚ) < 1 := by
    have := Int.lt_floor_add_one q
    linarith
  split_ifs with a b c
  · rw [abs_of_nonneg h0]; linarith
  · have e : q - ((⌊q⌋ + 1 : ℤ) : ℚ) = (q - (⌊q⌋ : ℚ)) - 1 := by
      push_cast; ring
    rw [e, abs_of_nonpos (by linarith)]
    linarith
  · rw [abs_of_nonneg h0]; linarith
  · have e : q - ((⌊q⌋ + 1 : ℤ) : ℚ) = (q - (⌊q⌋ : ℚ)) - 1 := by
      push_cast; ring
    rw [e, abs_of_nonpos (by linarith)]
    linarith

/-- `pyRound` never rounds below the floor. -/
theorem floor_le_pyRound (q : ℚ) : ⌊q⌋ ≤ pyRound q := by
  simp only [pyRound, rat_floor_eq_intFloor]
  split_ifs <;> omega

/-- On nonnegative values Python `int()` is the floor. -/
theorem pyInt_of_nonneg (q : ℚ) (h : 0 ≤ q) : pyInt q = ⌊q⌋ := by
  simp [pyInt, h, rat_floor_eq_intFloor]

/-- C7: `format_bep_years` splits a nonnegative fractional-year value into
whole years (the floor) and a nearest-integer month count in `[0, 12]`;
a month count of 12 carries into the years and renders as years only, and
otherwise the zero component is omitted from the rendering. -/
theorem format_bep_years_spec (q : ℚ) (hq : 0 ≤ q) :
    pyInt q = ⌊q⌋ ∧
    |((q - (pyInt q : ℚ)) * 12) - ((pyRound ((q - (pyInt q : ℚ)) * 12) : ℤ) : ℚ)| ≤ 1/2 ∧
    0 ≤ pyRound ((q - (pyInt q : ℚ)) * 12) ∧
    pyRound ((q - (pyInt q : ℚ)) * 12) ≤ 12 ∧
    (pyRound ((q - (pyInt q : ℚ)) * 12) = 12 →
      format_bep_years q = intStr (pyInt q + 1) ++ " tahun") ∧
    (pyRound ((q - (pyInt q : ℚ)) * 12) ≠ 12 →
      format_bep_years q =
        (if pyInt q = 0 then
          intStr (pyRound ((q - (pyInt q : ℚ)) * 12)) ++ " bulan"
         else if pyRound ((q - (pyInt q : ℚ)) * 12) = 0 then
          intStr (pyInt q) ++ " tahun"
         else
          intStr (pyInt q) ++ " tahun " ++
            intStr (pyRound ((q - (pyInt q : ℚ)) * 12)) ++ " bulan")) := by
  have hy : pyInt q = ⌊q⌋ := pyInt_of_nonneg q hq
  set x : ℚ := (q - (pyInt q : ℚ)) * 12 with hx
  have hx0 : 0 ≤ x := by
    rw [hx, hy]
    have : (0 : ℚ) ≤ q - (⌊q⌋ : ℚ) := sub_nonneg.2 (Int.floor_le q)
    linarith
  have hx12 : x < 12 := by
    rw [hx, hy]
    have := Int.lt_floor_add_one q
    have : q - (⌊q⌋ : ℚ) < 1 := by linarith
    linarith
  have hnear : |x - ((pyRound x : ℤ) : ℚ)| ≤ 1/2 := pyRound_nearest x
  have hm0 : 0 ≤ pyRound x := le_trans (Int.floor_nonneg.2 hx0) (floor_le_pyRound x)
  have hm12 : pyRound x ≤ 12 := by
    have hub : ((pyRound x : ℤ) : ℚ) ≤ x + 1/2 := by
      rcases abs_le.1 hnear with ⟨hl, _⟩
      linarith
    have hq2 : ((2 * pyRound x : ℤ) : ℚ) < 25 := by push_cast; linarith
    have h2 : (2 : ℤ) * pyRound x < 25 := by exact_mod_cast hq2
    omega
  have hfl : 0 ≤ ⌊q⌋ := Int.floor_nonneg.2 hq
  have hy1 : pyInt q + 1 ≠ 0 := by omega
  refine ⟨hy, hnear, hm0, hm12, ?_, ?_⟩
  · intro h12
    rw [format_bep_years]
    simp only [← hx, h12, if_true, reduceIte]
    simp [hy1]
  · intro h12
    rw [format_bep_years]
    simp only [← hx, h12, reduceIte, if_false]

/-- Witness for C7: 1.999999 years renders as exactly two years, through the
twelve-month carry. -/
theorem format_bep_years_spec_witness :
    (0 : ℚ) ≤ 1999999/1000000 ∧
    (pyRound (((1999999/1000000 : ℚ) - (pyInt (1999999/1000000 : ℚ) : ℚ)) * 12) = 12 →
      format_bep_years (1999999/1000000 : ℚ) =
        intStr (pyInt (1999999/1000000 : ℚ) + 1) ++ " tahun") ∧
    format_bep_years (1999999/1000000 : ℚ) = "2 tahun" :=
  ⟨by norm_num,
    (format_bep_years_spec (1999999/1000000) (by norm_num)).2.2.2.2.1,
    by decide⟩

/-- Digit characters are never the separator character. -/
theorem digitChar_ne_dot (d : ℕ) (h : d < 10) : digitChar d ≠ '.' := by
  interval_cases d <;> decide

/-- All characters produced by the digit renderer are non-separators. -/
theorem natDigitsAux_no_dot :
    ∀ (fuel n : ℕ) (acc : List Char), (∀ c ∈ acc, c ≠ '.') →
      ∀ c ∈ natDigitsAux fuel n acc, c ≠ '.' := by
  intro fuel
  induction fuel with
  | zero => intro n acc hacc c hc; exact hacc c hc
  | succ fuel ih =>
    intro n acc hacc c hc
    rw [natDigitsAux] at hc
    split at hc
    · rcases List.mem_cons.mp hc with h | h
      · subst h; exact digitChar_ne_dot n (by omega)
      · exact hacc c h
    · exact ih (n / 10) _
        (by
          intro c hc
          rcases List.mem_cons.mp hc with h | h
          · subst h; exact digitChar_ne_dot (n % 10) (Nat.mod_lt _ (by omega))
          · exact hacc c h)
        c hc

/-- The decimal digits of a natural number contain no separator. -/
theorem natDigits_no_dot (n : ℕ) : ∀ c ∈ natDigits n, c ≠ '.' :=
  natDigitsAux_no_dot (n + 1) n [] (by intro c hc; cases hc)

/-- Chunking splits a list without loss. -/
theorem chunk3_flatten : ∀ l : List Char, (chunk3 l).flatten = l := by
  intro l
  induction l using chunk3.induct with
  | case1 => rfl
  | case2 a => rfl
  | case3 a b => rfl
  | case4 a b c rest ih =>
    simp [chunk3, List.flatten, ih]

/-- Every chunk has between one and three characters. -/
theorem chunk3_length : ∀ l : List Char, ∀ c ∈ chunk3 l,
    0 < c.length ∧ c.length ≤ 3 := by
  intro l
  induction l using chunk3.induct with
  | case1 => intro c hc; cases hc
  | case2 a =>
    intro c hc
    rcases List.mem_cons.mp hc with h | h
    · simp [h]
    · cases h
  | case3 a b =>
    intro c hc
    rcases List.mem_cons.mp hc with h | h
    · simp [h]
    · cases h
  | case4 a b c rest ih =>
    intro d hd
    rcases List.mem_cons.mp hd with h | h
    · simp [h]
    · exact ih d h

/-- All chunks except the last have exactly three characters. -/
theorem chunk3_dropLast_length : ∀ l : List Char,
    ∀ c ∈ (chunk3 l).dropLast, c.length = 3 := by
  intro l
  induction l using chunk3.induct with
  | case1 => intro c hc; cases hc
  | case2 a => intro c hc; cases hc
  | case3 a b => intro c hc; cases hc
  | case4 a b c rest ih =>
    intro d hd
    rw [chunk3] at hd
    rcases hrest : chunk3 rest with _ | ⟨x, xs⟩
    · rw [hrest] at hd; cases hd
    · rw [hrest] at hd
      rw [List.dropLast_cons₂] at hd
      rcases List.mem_cons.mp hd with h | h
      · simp [h]
      · exact ih d (by rw [hrest]; exact h)

/-- Removing the separators of a dot-joined chunk list recovers the chunks. -/
theorem removeDots_sepDots : ∀ L : List (List Char),
    (∀ l ∈ L, ∀ c ∈ l, c ≠ '.') → removeDots (sepDots L) = L.flatten := by
  intro L
  induction L using sepDots.induct with
  | case1 => intro _; rfl
  | case2 a =>
    intro h
    simp only [sepDots, removeDots, List.flatten, List.append_nil]
    rw [List.filter_eq_self]
    intro c hc
    simpa using h a (by simp) c hc
  | case3 a b rest ih =>
    intro h
    simp only [sepDots, removeDots] at *
    rw [List.filter_append]
    have h1 : a.filter (fun c => decide (c ≠ '.')) = a := by
      rw [List.filter_eq_self]
      intro c hc
      simpa using h a (by simp) c hc
    have h2 : List.filter (fun c => decide (c ≠ '.')) ('.' :: sepDots (b :: rest)) =
        List.filter (fun c => decide (c ≠ '.')) (sepDots (b :: rest)) := by
      simp [List.filter_cons]
    rw [h1, h2, ih (by intro l hl c hc; exact h l (List.mem_cons_of_mem a hl) c hc)]
    simp [List.flatten]

/-- C9 counterexample: `format_currency` does not return a string on every
input — for a non-numeric string both the float format and the `int()`
retry raise, and the exception escapes. -/
theorem format_currency_raises_cex :
    format_currency (PyValue.strV "abc") = none := by decide

/-- C9 (amended): on every finite numeric value `format_currency` returns
`Rp` plus the value rounded to zero decimals and thousands-grouped with
periods; the grouping is lossless (removing the periods recovers the exact
digit string) and groups by threes; non-finite floats yield `Rp inf`/`Rp nan`
through the same non-raising branch; a string input degrades to an `int()`
cast when that cast succeeds — but inputs where the cast also fails raise
instead of returning a string. -/
theorem format_currency_spec :
    (∀ q : ℚ, format_currency (PyValue.num q) = some (fmtRp q)) ∧
    (∀ q : ℚ, (fmtRp q).data =
      "Rp ".data ++ (if q < 0 then ['-'] else []) ++
        groupThousands (natDigits (pyRound (qabs q)).toNat)) ∧
    (∀ m : ℕ, removeDots (groupThousands (natDigits m)) = natDigits m) ∧
    (∀ l : List Char, ∀ c ∈ chunk3 l, 0 < c.length ∧ c.length ≤ 3) ∧
    (∀ l : List Char, ∀ c ∈ (chunk3 l).dropLast, c.length = 3) ∧
    format_currency PyValue.infVal = some "Rp inf" ∧
    format_currency PyValue.nanVal = some "Rp nan" ∧
    (∀ s : String, ∀ z : ℤ, parseIntStr s = some z →
      format_currency (PyValue.strV s) =
        some ("Rp " ++ (if z < 0 then "-" else "") ++
          String.mk (groupThousands (natDigits z.natAbs)))) := by
  refine ⟨fun q => rfl, ?_, ?_, chunk3_length, chunk3_dropLast_length,
    rfl, rfl, ?_⟩
  · intro q
    by_cases h : q < 0 <;>
      simp [fmtRp, fmtComma0f, h, String.data_append]
  · intro m
    have hnd : ∀ l ∈ chunk3 (natDigits m).reverse, ∀ c ∈ l, c ≠ '.' := by
      intro l hl c hc
      have hmem : c ∈ (chunk3 (natDigits m).reverse).flatten :=
        List.mem_flatten.mpr ⟨l, hl, hc⟩
      rw [chunk3_flatten] at hmem
      exact natDigits_no_dot m c (List.mem_reverse.mp hmem)
    calc removeDots (groupThousands (natDigits m))
        = (removeDots (sepDots (chunk3 (natDigits m).reverse))).reverse := by
          simp [groupThousands, removeDots, List.filter_reverse]
      _ = ((chunk3 (natDigits m).reverse).flatten).reverse := by
          rw [removeDots_sepDots _ hnd]
      _ = natDigits m := by
          rw [chunk3_flatten]
          exact List.reverse_reverse _
  · intro s z h
    simp [format_currency, h]

/-- Witness for C9 (amended) at a concrete string input whose integer cast
succeeds. -/
theorem format_currency_spec_witness :
    parseIntStr "1234567" = some 1234567 ∧
    format_currency (PyValue.strV "1234567") =
      some ("Rp " ++ (if (1234567 : ℤ) < 0 then "-" else "") ++
        String.mk (groupThousands (natDigits (1234567 : ℤ).natAbs))) :=
  ⟨by decide,
    format_currency_spec.2.2.2.2.2.2.2 "1234567" 1234567 (by decide)⟩

/-- Sequential accumulation of per-element message lists is their
concatenation. -/
theorem foldl_append_eq {α β : Type} (f : α → List β) :
    ∀ (l : List α) (init : List β),
      l.foldl (fun acc a => acc ++ f a) init = init ++ (l.map f).flatten := by
  intro l
  induction l with
  | nil => intro init; simp
  | cons a t ih => intro init; simp [List.foldl_cons, ih]

/-- One required-positive field contributes a message exactly when it is
missing or not positive. -/
theorem reqFieldErr_ne_nil (fv : String × Option ℚ) :
    reqFieldErr fv ≠ [] ↔ (fv.2 = none ∨ ∃ q, fv.2 = some q ∧ q ≤ 0) := by
  rcases fv with ⟨name, v⟩
  cases v with
  | none => simp [reqFieldErr]
  | some q =>
    by_cases h : q ≤ 0 <;> simp [reqFieldErr, h]

/-- One percentage field contributes a message exactly when it is supplied
and outside the unit interval. -/
theorem pctFieldErr_ne_nil (fv : String × Option ℚ) :
    pctFieldErr fv ≠ [] ↔ (∃ q, fv.2 = some q ∧ ¬ (0 ≤ q ∧ q ≤ 1)) := by
  rcases fv with ⟨name, v⟩
  cases v with
  | none => simp [pctFieldErr]
  | some q =>
    by_cases h : (0 ≤ q ∧ q ≤ 1)
    · have e : pctFieldErr (name, some q) = [] := by simp [pctFieldErr, h]
      rw [e]
      constructor
      · intro hne; exact absurd rfl hne
      · rintro ⟨x, hx, hbad⟩
        obtain rfl : q = x := by injection hx
        exact absurd h hbad
    · have e : pctFieldErr (name, some q) =
          [name ++ " must be between 0 and 1"] := by simp [pctFieldErr, h]
      rw [e]
      constructor
      · intro _; exact ⟨q, rfl, h⟩
      · intro _; simp

/-- The name/segment messages are present exactly for empty stripped
strings. -/
theorem nameErrs_ne_nil (data : Payload) :
    nameErrs data ≠ [] ↔
      (pyStrip (data.unit_name.getD "").data = [] ∨
       pyStrip (data.segment.getD "").data = []) := by
  by_cases h1 : pyStrip (data.unit_name.getD "").data = [] <;>
    by_cases h2 : pyStrip (data.segment.getD "").data = [] <;>
      simp [nameErrs, h1, h2]

/-- The flag message is present exactly for a non-boolean flag value. -/
theorem leasErrs_ne_nil (data : Payload) :
    leasErrs data ≠ [] ↔
      data.uses_leasing.getD (.boolV false) = .nonBool := by
  rcases hv : data.uses_leasing.getD (.boolV false) with b | _ <;>
    simp [leasErrs, hv]

/-- A concatenation of per-element lists is nonempty exactly when some
element contributes. -/
theorem flatten_map_ne_nil {α β : Type} (f : α → List β) (l : List α) :
    (l.map f).flatten ≠ [] ↔ ∃ a ∈ l, f a ≠ [] := by
  rw [ne_eq, List.flatten_eq_nil_iff]
  constructor
  · intro h
    push_neg at h
    obtain ⟨x, hx, hne⟩ := h
    obtain ⟨a, ha, rfl⟩ := List.mem_map.mp hx
    exact ⟨a, ha, hne⟩
  · rintro ⟨a, ha, hne⟩ hall
    exact hne (hall _ (List.mem_map_of_mem f ha))

/-- The collected messages are empty exactly when no violation is present. -/
theorem collectErrors_ne_nil (data : Payload) :
    collectErrors data ≠ [] ↔ payloadViolation data := by
  rw [collectErrors, foldl_append_eq, foldl_append_eq, payloadViolation]
  simp only [List.nil_append]
  constructor
  · intro h
    have hsplit : nameErrs data ≠ [] ∨
        ((requiredPositiveFields data).map reqFieldErr).flatten ≠ [] ∨
        ((percentageFields data).map pctFieldErr).flatten ≠ [] ∨
        leasErrs data ≠ [] := by
      by_contra hc
      push_neg at hc
      obtain ⟨h1, h2, h3, h4⟩ := hc
      rw [h1, h2, h3, h4] at h
      exact h rfl
    rcases hsplit with h1 | h2 | h3 | h4
    · rcases (nameErrs_ne_nil data).mp h1 with h | h
      · exact Or.inl h
      · exact Or.inr (Or.inl h)
    · obtain ⟨fv, hfv, hne⟩ := (flatten_map_ne_nil _ _).mp h2
      exact Or.inr (Or.inr (Or.inl ⟨fv, hfv, (reqFieldErr_ne_nil fv).mp hne⟩))
    · obtain ⟨fv, hfv, hne⟩ := (flatten_map_ne_nil _ _).mp h3
      exact Or.inr (Or.inr (Or.inr (Or.inl
        ⟨fv, hfv, (pctFieldErr_ne_nil fv).mp hne⟩)))
    · exact Or.inr (Or.inr (Or.inr (Or.inr ((leasErrs_ne_nil data).mp h4))))
  · intro h heq
    rw [List.append_eq_nil] at heq
    obtain ⟨habc, h4⟩ := heq
    rw [List.append_eq_nil] at habc
    obtain ⟨hab, h3⟩ := habc
    rw [List.append_eq_nil] at hab
    obtain ⟨h1, h2⟩ := hab
    rcases h with h | h | h | h | h
    · exact (nameErrs_ne_nil data).mpr (Or.inl h) h1
    · exact (nameErrs_ne_nil data).mpr (Or.inr h) h1
    · obtain ⟨fv, hfv, hv⟩ := h
      exact (flatten_map_ne_nil reqFieldErr _).mpr
        ⟨fv, hfv, (reqFieldErr_ne_nil fv).mpr hv⟩ h2
    · obtain ⟨fv, hfv, hv⟩ := h
      exact (flatten_map_ne_nil pctFieldErr _).mpr
        ⟨fv, hfv, (pctFieldErr_ne_nil fv).mpr hv⟩ h3
    · exact (leasErrs_ne_nil data).mpr h h4

/-- C4: `validate_vehicle_data` raises exactly when at least one constraint
is violated; the single raised message is the aggregation of all collected
messages, each present violation contributes its message to that list, and a
payload missing three required fields yields one error naming all three. -/
theorem validate_vehicle_data_spec (data : Payload) :
    ((∃ msg, validate_vehicle_data data = .error msg) ↔ payloadViolation data) ∧
    (payloadViolation data →
      validate_vehicle_data data =
        .error ("Validation errors: " ++
          String.intercalate ", " (collectErrors data))) ∧
    (pyStrip (data.unit_name.getD "").data = [] →
      "unit_name is required and cannot be empty" ∈ collectErrors data) ∧
    (pyStrip (data.segment.getD "").data = [] →
      "segment is required and cannot be empty" ∈ collectErrors data) ∧
    (∀ fv ∈ requiredPositiveFields data, fv.2 = none →
      fv.1 ++ " is required" ∈ collectErrors data) ∧
    (∀ fv ∈ requiredPositiveFields data, ∀ q : ℚ, fv.2 = some q → q ≤ 0 →
      fv.1 ++ " must be a positive number" ∈ collectErrors data) ∧
    (∀ fv ∈ percentageFields data, ∀ q : ℚ, fv.2 = some q → ¬ (0 ≤ q ∧ q ≤ 1) →
      fv.1 ++ " must be between 0 and 1" ∈ collectErrors data) ∧
    (data.uses_leasing.getD (.boolV false) = .nonBool →
      "uses_leasing must be a boolean" ∈ collectErrors data) ∧
    validate_vehicle_data missingThreePayload =
      .error "Validation errors: unit_price is required, tco is required, annual_tco is required" := by
  have herr : payloadViolation data →
      validate_vehicle_data data =
        .error ("Validation errors: " ++
          String.intercalate ", " (collectErrors data)) := by
    intro h
    rw [validate_vehicle_data]
    rw [if_pos ((collectErrors_ne_nil data).mpr h)]
  refine ⟨?_, herr, ?_, ?_, ?_, ?_, ?_, ?_, by rfl⟩
  · constructor
    · rintro ⟨msg, hmsg⟩
      by_cases h : collectErrors data ≠ []
      · exact (collectErrors_ne_nil data).mp h
      · rw [validate_vehicle_data, if_neg h] at hmsg
        simp at hmsg
    · intro h
      exact ⟨_, herr h⟩
  · intro h
    rw [collectErrors]
    refine List.mem_append_left _ (List.mem_append_left _
      (List.mem_append_left _ ?_))
    rw [nameErrs, if_pos h]
    simp
  · intro h
    rw [collectErrors]
    refine List.mem_append_left _ (List.mem_append_left _
      (List.mem_append_left _ ?_))
    rw [nameErrs]
    refine List.mem_append_right _ ?_
    rw [if_pos h]
    simp
  · intro fv hfv hnone
    rw [collectErrors, foldl_append_eq, foldl_append_eq]
    simp only [List.nil_append]
    refine List.mem_append_left _ (List.mem_append_left _
      (List.mem_append_right _ ?_))
    refine List.mem_flatten.mpr ⟨reqFieldErr fv, List.mem_map_of_mem _ hfv, ?_⟩
    rcases fv with ⟨name, v⟩
    cases hnone
    simp [reqFieldErr]
  · intro fv hfv q hq hle
    rw [collectErrors, foldl_append_eq, foldl_append_eq]
    simp only [List.nil_append]
    refine List.mem_append_left _ (List.mem_append_left _
      (List.mem_append_right _ ?_))
    refine List.mem_flatten.mpr ⟨reqFieldErr fv, List.mem_map_of_mem _ hfv, ?_⟩
    rcases fv with ⟨name, v⟩
    cases hq
    simp [reqFieldErr, hle]
  · intro fv hfv q hq hout
    rw [collectErrors, foldl_append_eq, foldl_append_eq]
    simp only [List.nil_append]
    refine List.mem_append_left _ (List.mem_append_right _ ?_)
    refine List.mem_flatten.mpr ⟨pctFieldErr fv, List.mem_map_of_mem _ hfv, ?_⟩
    rcases fv with ⟨name, v⟩
    cases hq
    simp [pctFieldErr, hout]
  · intro h
    rw [collectErrors]
    refine List.mem_append_right _ ?_
    rw [leasErrs, h]
    simp

/-- Witness for C4: the concrete payload missing `unit_price` puts the
corresponding message into the collected error list. -/
theorem validate_vehicle_data_spec_witness :
    ("unit_price", (none : Option ℚ)) ∈ requiredPositiveFields missingThreePayload ∧
    "unit_price" ++ " is required" ∈ collectErrors missingThreePayload :=
  ⟨by decide,
    (validate_vehicle_data_spec missingThreePayload).2.2.2.2.1
      ("unit_price", none) (by decide) rfl⟩

/-! ### Lemmas for the neutrality-filter idempotence -/

/-- An initial segment obtained by `take` is a prefix. -/
theorem takeIsPre (c : ℕ) (v : List Char) : v.take c <+: v :=
  ⟨v.drop c, List.take_append_drop c v⟩

/-- Dropping preserves the prefix relation. -/
theorem dropIsPre {u v : List Char} (p : ℕ) (h : u <+: v) :
    u.drop p <+: v.drop p := by
  obtain ⟨s, rfl⟩ := h
  by_cases hp : p ≤ u.length
  · rw [List.drop_append_of_le_length hp]
    exact ⟨s, rfl⟩
  · rw [List.drop_eq_nil_of_le (by omega)]
    exact ⟨(u ++ s).drop p, rfl⟩

/-- Nonempty prefixes share their head. -/
theorem prefix_head_eq {u v : List Char} (h : u <+: v) (hu : u ≠ []) :
    u.head? = v.head? := by
  obtain ⟨s, rfl⟩ := h
  cases u with
  | nil => exact absurd rfl hu
  | cons a t => rfl

/-- A hit of `firstOcc` is an occurrence. -/
theorem firstOcc_some_pre (w : List Char) :
    ∀ (t : List Char) (q : ℕ), firstOcc w t = some q → w <+: t.drop q := by
  intro t
  induction t with
  | nil =>
    intro q h
    rw [firstOcc] at h
    by_cases hw : w.isPrefixOf ([] : List Char)
    · rw [if_pos hw] at h
      obtain rfl : 0 = q := by injection h
      exact (List.isPrefixOf_iff_prefix).mp hw
    · rw [if_neg hw] at h
      exact absurd h (by simp)
  | cons a ts ih =>
    intro q h
    rw [firstOcc] at h
    by_cases hw : w.isPrefixOf (a :: ts)
    · rw [if_pos hw] at h
      obtain rfl : 0 = q := by injection h
      exact (List.isPrefixOf_iff_prefix).mp hw
    · rw [if_neg hw] at h
      rcases hoc : firstOcc w ts with _ | q0
      · rw [hoc] at h; exact absurd h (by simp)
      · rw [hoc] at h
        obtain rfl : q0 + 1 = q := by injection h
        simpa using ih q0 hoc

/-- An occurrence forces a hit of `firstOcc` at the same place or earlier. -/
theorem firstOcc_le (w : List Char) :
    ∀ (t : List Char) (p : ℕ), w <+: t.drop p →
      ∃ q, firstOcc w t = some q ∧ q ≤ p := by
  intro t
  induction t with
  | nil =>
    intro p h
    rw [List.drop_nil] at h
    obtain ⟨s, hs⟩ := h
    have hw : w = [] := (List.append_eq_nil.mp hs).1
    refine ⟨0, ?_, Nat.zero_le p⟩
    rw [firstOcc, if_pos ((List.isPrefixOf_iff_prefix).mpr (by rw [hw]))]
  | cons a ts ih =>
    intro p h
    by_cases hw : w.isPrefixOf (a :: ts)
    · exact ⟨0, by rw [firstOcc, if_pos hw], Nat.zero_le p⟩
    · cases p with
      | zero =>
        rw [List.drop_zero] at h
        exact absurd ((List.isPrefixOf_iff_prefix).mpr h) hw
      | succ p =>
        obtain ⟨q, hq, hle⟩ := ih p (by simpa using h)
        refine ⟨q + 1, ?_, by omega⟩
        rw [firstOcc, if_neg hw, hq]
        rfl

/-- A left fold by `min` bounds every element and the seed. -/
theorem foldl_min_le (l : List ℕ) :
    ∀ a : ℕ, l.foldl Nat.min a ≤ a ∧ ∀ b ∈ l, l.foldl Nat.min a ≤ b := by
  induction l with
  | nil => intro a; exact ⟨le_rfl, by intro b hb; cases hb⟩
  | cons x xs ih =>
    intro a
    obtain ⟨h1, h2⟩ := ih (Nat.min a x)
    refine ⟨le_trans h1 (Nat.min_le_left a x), ?_⟩
    intro b hb
    rcases List.mem_cons.mp hb with rfl | hb
    · exact le_trans h1 (Nat.min_le_right a b)
    · exact h2 b hb

/-- The cut index is at most any hit position of any banned word. -/
theorem cutIndex_le (low : List Char) (w : String) (hw : w ∈ bannedWords)
    (q : ℕ) (h : firstOcc w.data low = some q) : cutIndex low ≤ q := by
  have hq : q ∈ bannedWords.filterMap (fun w => firstOcc w.data low) :=
    List.mem_filterMap.mpr ⟨w, hw, h⟩
  rw [cutIndex]
  rcases hoc : bannedWords.filterMap (fun w => firstOcc w.data low) with _ | ⟨o, os⟩
  · rw [hoc] at hq; cases hq
  · rw [hoc] at hq
    rw [hoc]
    rcases List.mem_cons.mp hq with rfl | hq
    · exact (foldl_min_le os q).1
    · exact (foldl_min_le os o).2 q hq

/-- When no banned word occurs, the cut index is the full length. -/
theorem cutIndex_eq_length (low : List Char)
    (h : ∀ w ∈ bannedWords, firstOcc w.data low = none) :
    cutIndex low = low.length := by
  rw [cutIndex]
  rcases hoc : bannedWords.filterMap (fun w => firstOcc w.data low) with _ | ⟨o, os⟩
  · rw [hoc]
  · exfalso
    have : o ∈ bannedWords.filterMap (fun w => firstOcc w.data low) := by
      rw [hoc]; exact List.mem_cons_self o os
    obtain ⟨w, hw, hfo⟩ := List.mem_filterMap.mp this
    rw [h w hw] at hfo
    cases hfo

/-- Every banned word is nonempty and period-free. -/
theorem bannedWords_facts :
    ∀ w ∈ bannedWords, w.data ≠ [] ∧ '.' ∉ w.data := by decide

/-- A dot-free word that prefixes `z ++ [dot]` already prefixes `z`. -/
theorem prefix_append_dot_elim {w z : List Char} (_hne : w ≠ [])
    (hdot : '.' ∉ w) (h : w <+: z ++ ['.']) : w <+: z := by
  have hlen : w.length ≤ z.length + 1 := by
    have := h.length_le
    simpa using this
  rcases Nat.lt_or_ge w.length (z.length + 1) with hlt | hge
  · have hle : w.length ≤ z.length := by omega
    have heq : w = (z ++ ['.']).take w.length := List.prefix_iff_eq_take.mp h
    rw [List.take_append_of_le_length hle] at heq
    rw [heq]
    exact takeIsPre w.length z
  · exfalso
    have hlen2 : w.length = z.length + 1 := by omega
    have heq : w = z ++ ['.'] := by
      have := List.prefix_iff_eq_take.mp h
      rwa [hlen2, show z.length + 1 = (z ++ ['.']).length by simp,
        List.take_length] at this
    exact hdot (by rw [heq]; simp)

/-- `dropWhile` keeps being a self-map on its own result. -/
theorem dropWhile_idem (p : Char → Bool) :
    ∀ l : List Char, (l.dropWhile p).dropWhile p = l.dropWhile p := by
  intro l
  induction l with
  | nil => rfl
  | cons a t ih =>
    by_cases h : p a
    · rw [List.dropWhile_cons_of_pos h, ih]
    · rw [List.dropWhile_cons_of_neg h, List.dropWhile_cons_of_neg h]

/-- The head surviving `dropWhile` fails the predicate. -/
theorem dropWhile_head_not (p : Char → Bool) :
    ∀ (l : List Char) (c : Char), (l.dropWhile p).head? = some c → p c = false := by
  intro l
  induction l with
  | nil => intro c h; cases h
  | cons a t ih =>
    intro c h
    by_cases hp : p a
    · rw [List.dropWhile_cons_of_pos hp] at h
      exact ih c h
    · rw [List.dropWhile_cons_of_neg hp] at h
      obtain rfl : a = c := by injection h
      exact Bool.not_eq_true _ ▸ (by simpa using hp)

/-- The right strip is a prefix of its argument. -/
theorem rstripIsPre (p : Char → Bool) (l : List Char) : rstripP p l <+: l := by
  obtain ⟨s, hs⟩ := List.dropWhile_suffix p (l := l.reverse)
  refine ⟨s.reverse, ?_⟩
  rw [rstripP]
  have h2 := congrArg List.reverse hs
  rw [List.reverse_reverse, List.reverse_append] at h2
  exact h2

/-- The last character surviving a right strip fails the predicate. -/
theorem rstripP_last_not (p : Char → Bool) (l : List Char) (c : Char)
    (h : (rstripP p l).getLast? = some c) : p c = false := by
  rw [rstripP, List.getLast?_reverse] at h
  exact dropWhile_head_not p l.reverse c h

/-- Right stripping is idempotent. -/
theorem rstripP_idem (p : Char → Bool) (l : List Char) :
    rstripP p (rstripP p l) = rstripP p l := by
  rw [rstripP, rstripP, List.reverse_reverse, dropWhile_idem]

/-- Appending one stripped character does not change a right strip. -/
theorem rstripP_append_single (p : Char → Bool) (l : List Char) (c : Char)
    (h : p c = true) : rstripP p (l ++ [c]) = rstripP p l := by
  rw [rstripP, rstripP, List.reverse_append]
  simp [List.dropWhile_cons, h]

/-- The head of a `pyStrip` result is not whitespace. -/
theorem pyStrip_head_not (l : List Char) (c : Char)
    (h : (pyStrip l).head? = some c) : pyWs c = false := by
  rw [pyStrip] at h
  have hne : rstripP pyWs (l.dropWhile pyWs) ≠ [] := by
    intro heq
    rw [heq] at h
    cases h
  rw [prefix_head_eq (rstripIsPre pyWs (l.dropWhile pyWs)) hne] at h
  exact dropWhile_head_not pyWs l c h

/-- The last character of a `pyStrip` result is not whitespace. -/
theorem pyStrip_last_not (l : List Char) (c : Char)
    (h : (pyStrip l).getLast? = some c) : pyWs c = false :=
  rstripP_last_not pyWs (l.dropWhile pyWs) c h

/-- A list whose boundary characters are not whitespace is fixed by
`pyStrip`. -/
theorem pyStrip_eq_self (l : List Char)
    (h1 : ∀ c, l.head? = some c → pyWs c = false)
    (h2 : ∀ c, l.getLast? = some c → pyWs c = false) : pyStrip l = l := by
  have hdw : l.dropWhile pyWs = l := by
    cases l with
    | nil => rfl
    | cons a t => exact List.dropWhile_cons_of_neg (by simp [h1 a rfl])
  rw [pyStrip, hdw, rstripP]
  suffices hs : l.reverse.dropWhile pyWs = l.reverse by
    rw [hs, List.reverse_reverse]
  cases hr : l.reverse with
  | nil => rfl
  | cons a t =>
    have ha : l.getLast? = some a := by
      rw [← List.head?_reverse, hr]
      rfl
    exact List.dropWhile_cons_of_neg (by simp [h2 a ha])

/-- Normal form of `sanitizeCore` on a nonempty input: after truncation and
trailing-punctuation stripping, a single period is appended exactly when
the remainder is nonempty. -/
theorem sanitizeCore_eq (text : List Char) (h : text ≠ []) :
    sanitizeCore text =
      (if rstripP trailPunct
          ((pyStrip text).take (cutIndex ((pyStrip text).map Char.toLower))) = []
       then []
       else rstripP trailPunct
          ((pyStrip text).take (cutIndex ((pyStrip text).map Char.toLower))) ++
         ['.']) := by
  simp only [sanitizeCore]
  rw [if_neg h]
  by_cases h2 : rstripP trailPunct
      ((pyStrip text).take (cutIndex ((pyStrip text).map Char.toLower))) = []
  · rw [if_pos h2, if_neg (by simp [h2])]
    exact h2
  · have hlast : ¬ (rstripP trailPunct
        ((pyStrip text).take (cutIndex ((pyStrip text).map Char.toLower)))).getLast? =
          some '.' := by
      intro hl
      have := rstripP_last_not trailPunct _ '.' hl
      simp [trailPunct] at this
    rw [if_neg h2]
    rw [if_pos ?hc]
    case hc => exact ⟨h2, hlast⟩

/-- No banned word occurs anywhere in the truncated, stripped, lowercased
remainder with its closing period: the truncation cut before the earliest
occurrence, stripping only shortens, and no banned word contains a period. -/
theorem sanitize_no_banned_left (text : List Char) (w : String)
    (hw : w ∈ bannedWords) (p : ℕ) :
    ¬ w.data <+:
      (((rstripP trailPunct ((pyStrip text).take
          (cutIndex ((pyStrip text).map Char.toLower)))).map Char.toLower) ++
        ['.']).drop p := by
  intro hpre
  obtain ⟨hwne, hwdot⟩ := bannedWords_facts w hw
  by_cases hp : p ≤ ((rstripP trailPunct ((pyStrip text).take
      (cutIndex ((pyStrip text).map Char.toLower)))).map Char.toLower).length
  · rw [List.drop_append_of_le_length hp] at hpre
    have h1 := prefix_append_dot_elim hwne hwdot hpre
    have h2 : (rstripP trailPunct ((pyStrip text).take
        (cutIndex ((pyStrip text).map Char.toLower)))).map Char.toLower <+:
        ((pyStrip text).map Char.toLower).take
          (cutIndex ((pyStrip text).map Char.toLower)) := by
      rw [← List.map_take]
      exact (rstripIsPre trailPunct _).map Char.toLower
    have h3 := h1.trans (dropIsPre p h2)
    rw [List.drop_take] at h3
    have hcutp : p < cutIndex ((pyStrip text).map Char.toLower) := by
      by_contra hc
      push_neg at hc
      rw [Nat.sub_eq_zero_of_le hc, List.take_zero] at h3
      obtain ⟨s, hs⟩ := h3
      exact hwne (List.append_eq_nil.mp hs).1
    have h4 := h3.trans (takeIsPre _ _)
    obtain ⟨q, hq, hqp⟩ :=
      firstOcc_le w.data ((pyStrip text).map Char.toLower) p h4
    have := cutIndex_le ((pyStrip text).map Char.toLower) w hw q hq
    omega
  · push_neg at hp
    rw [List.length_map] at hp
    rw [List.drop_eq_nil_of_le (by simp; omega)] at hpre
    obtain ⟨s, hs⟩ := hpre
    exact hwne (List.append_eq_nil.mp hs).1

/-- A nonempty, whitespace-headed-free, right-stripped, banned-word-free
remainder followed by a period is a fixed point of `sanitizeCore`. -/
theorem sanitizeCore_fixed (t2 : List Char)
    (h2 : t2 ≠ [])
    (hhead : ∀ c, t2.head? = some c → pyWs c = false)
    (hrs : rstripP trailPunct t2 = t2)
    (hnoband : ∀ w ∈ bannedWords, ∀ p,
      ¬ w.data <+: (t2.map Char.toLower ++ ['.']).drop p) :
    sanitizeCore (t2 ++ ['.']) = t2 ++ ['.'] := by
  have hrne : t2 ++ ['.'] ≠ [] := by simp
  rw [sanitizeCore_eq _ hrne]
  have hps : pyStrip (t2 ++ ['.']) = t2 ++ ['.'] :=
    pyStrip_eq_self _
      (fun c hc => hhead c (by
        rw [prefix_head_eq (⟨['.'], rfl⟩ : t2 <+: t2 ++ ['.']) h2]
        exact hc))
      (fun c hc => by
        rw [List.getLast?_concat] at hc
        obtain rfl : '.' = c := by injection hc
        decide)
  rw [hps]
  have hmap : (t2 ++ ['.']).map Char.toLower = t2.map Char.toLower ++ ['.'] := by
    rw [List.map_append]
    rfl
  rw [hmap]
  have hnone : ∀ w ∈ bannedWords,
      firstOcc w.data (t2.map Char.toLower ++ ['.']) = none := by
    intro w hw
    rcases hoc : firstOcc w.data (t2.map Char.toLower ++ ['.']) with _ | q
    · rfl
    · exact absurd (firstOcc_some_pre _ _ _ hoc) (hnoband w hw q)
  rw [cutIndex_eq_length _ hnone]
  rw [List.take_of_length_le (by simp)]
  rw [rstripP_append_single trailPunct t2 '.' (by decide), hrs]
  rw [if_neg h2]

/-- C5: the neutrality filter is idempotent — applying `sanitize_neutral`
twice yields the same string as applying it once. -/
theorem sanitize_neutral_idem (s : String) :
    sanitize_neutral (sanitize_neutral s) = sanitize_neutral s := by
  suffices h : ∀ l : List Char, sanitizeCore (sanitizeCore l) = sanitizeCore l by
    exact congrArg String.mk (h s.data)
  intro l
  by_cases h0 : l = []
  · subst h0; rfl
  rw [sanitizeCore_eq l h0]
  by_cases h2 : rstripP trailPunct
      ((pyStrip l).take (cutIndex ((pyStrip l).map Char.toLower))) = []
  · rw [if_pos h2]
    rfl
  · rw [if_neg h2]
    refine sanitizeCore_fixed _ h2 ?_ (rstripP_idem trailPunct _) ?_
    · intro c hc
      have hpre : rstripP trailPunct
          ((pyStrip l).take (cutIndex ((pyStrip l).map Char.toLower))) <+:
            pyStrip l :=
        (rstripIsPre trailPunct _).trans (takeIsPre _ _)
      rw [prefix_head_eq hpre h2] at hc
      exact pyStrip_head_not l c hc
    · intro w hw p
      exact sanitize_no_banned_left l w hw p

/-! ### Concrete evaluations checking the embedding against the source -/

example : pyStrip "  ab c  ".data = "ab c".data := by decide
example : firstOcc "bc".data "abcd".data = some 1 := by decide
example : pyRound (1/2) = 0 := by decide
example : pyRound (3/2) = 2 := by decide
example : pyRound (5/2) = 2 := by decide
example : pyRound (11999988/1000000) = 12 := by decide
example : fmtComma0f 1234567 = "1.234.567" := by decide
example : fmtRp 20000000 = "Rp 20.000.000" := by decide
example : fmtFixed (125/100 * 100) 1 = "125.0" := by decide
example : intStr (-3) = "-3" := by decide
example : parseIntStr " 42 " = some 42 := by decide
example : parseIntStr "abc" = none := by decide
example : (categorize_roi (5/4)).label = "Layak" := by decide
example : (categorize_cost_per_km 5000).label = "Efisien" := by decide
example : (categorize_cost_per_km (9601/2)).label = "Tidak Terkategori" := by decide
example : (categorize_bep (14/5)).label = "Cepat" := by decide
example : (categorize_contribution_margin 2500).label = "Rendah" := by decide
example : (categorize_cost_structure (55/100)).label = "Seimbang" := by decide
example : format_percentage (5/4) 1 = "125.0%" := by decide
example : format_percentage (55/100) 0 = "55%" := by decide
example : format_bep_years (14/5) = "2 tahun 10 bulan" := by decide
example : format_bep_years (1999999/1000000) = "2 tahun" := by decide
example : format_bep_years (1/2) = "6 bulan" := by decide
example : format_bep_years 3 = "3 tahun" := by decide
example : sanitize_neutral "Hasil baik. Namun perlu kajian." = "Hasil baik." := by decide
example : sanitize_neutral "Rekomendasi: jual" = "" := by decide
example : sanitize_neutral "  Stabil  " = "Stabil." := by decide
example : sanitize_neutral "" = "" := by decide
example : sanitize_neutral "Stabil." = "Stabil." := by decide
example :
    (validate_vehicle_data
      { unit_name := some "Truck A", segment := some "Logistik",
        unit_price := some 500000000, tco := some 1200000000,
        annual_tco := some 240000000, cost_per_km := some 5000,
        revenue_per_km := some 7500, contribution_margin := some 2500,
        total_revenue := some 1800000000, roi := some (5/4),
        bep_years := some (14/5), bep_km := some 150000,
        owning_pct := some (55/100), operational_pct := some (45/100),
        uses_leasing := some (.boolV true) }).isOk := by decide
example :
    (validate_vehicle_data { unit_name := some "X" }).isOk = false := by decide